import Mathlib

/-!
Verification of the multi-provider LLM dispatch and resilient-response-extraction
subsystem of the ZeroFalse repository.

The development shallowly embeds two source files:
  * `src/OpenVuln/generate_prompts_with_openrouter.py` — the cascading verdict
    extractor inside `_call_openrouter_api` and its fallback response;
  * `src/OWASP/llm_api_handler.py` — the model registry (`MODEL_CONFIGS`,
    `MODEL_PRICING`), `get_model_config`, `validate_model_parameters`,
    `is_openai_model`, the dispatch routing of `send_to_llm`, `count_tokens`
    and `calculate_cost`.

Python floats (temperatures, prices) are modelled as exact rationals; Python
dicts as association lists with in-place-update insertion, mirroring dict
assignment semantics; `json.loads` as a fuel-indexed recursive-descent parser
over the JSON grammar accepted by Python (strict mode).  All definitions are
executable.
-/

namespace ZeroFalse

/-- Characters that the Lean string-literal rules make awkward are named once. -/
def lbrace : Char := '\x7b'

def rbrace : Char := '\x7d'

def btick : Char := '\x60'

/-- JSON values as produced by Python `json.loads`.  Numbers keep their lexeme
(the extractor never computes with numeric values, it only stores them), so no
float semantics are needed.  `NaN`, `Infinity` and `-Infinity`, which Python
accepts by default, are represented as `num` lexemes. -/
inductive J where
  | null : J
  | bool (b : Bool) : J
  | num (lexeme : String) : J
  | str (s : String) : J
  | arr (elems : List J) : J
  | obj (fields : List (String × J)) : J

/-- Python dict assignment `d[k] = v`: replace in place if the key exists,
append otherwise. -/
def insertKV {α : Type} : List (String × α) → String → α → List (String × α)
  | [], k, v => [(k, v)]
  | (k', v') :: rest, k, v =>
    if k' = k then (k, v) :: rest else (k', v') :: insertKV rest k v

/-- Python `d.get(k)` / `d[k]`: first binding for the key. -/
def findKey {α : Type} : List (String × α) → String → Option α
  | [], _ => none
  | (k', v') :: rest, k => if k' = k then some v' else findKey rest k

/-- Python `k in d`. -/
def hasKey {α : Type} (o : List (String × α)) (k : String) : Bool :=
  (findKey o k).isSome

/-- Build a dict from a Python dict literal: sequential insertion, so a later
duplicate key overwrites the earlier entry (as in the source registry, which
lists `qwen/qwen3-235b-a22b` twice). -/
def buildDict {α : Type} (entries : List (String × α)) : List (String × α) :=
  entries.foldl (fun d e => insertKV d e.1 e.2) []

/-- Whitespace skipped by Python's JSON decoder: space, tab, newline, carriage
return. -/
def isJws (c : Char) : Bool :=
  c = ' ' || c = '\t' || c = '\n' || c = '\r'

def jws : List Char → List Char
  | [] => []
  | c :: cs => if isJws c then jws cs else c :: cs

/-- Match a literal character sequence, returning the remainder. -/
def dropLit : List Char → List Char → Option (List Char)
  | [], cs => some cs
  | _, [] => none
  | p :: ps, c :: cs => if c = p then dropLit ps cs else none

/-- Single-character JSON escapes (`\"  \\  \/  \b  \f  \n  \r  \t`). -/
def escChar : Char → Option Char
  | '"' => some '"'
  | '\\' => some '\\'
  | '/' => some '/'
  | 'b' => some '\x08'
  | 'f' => some '\x0c'
  | 'n' => some '\n'
  | 'r' => some '\r'
  | 't' => some '\t'
  | _ => none

def hexVal (c : Char) : Option Nat :=
  if '0' ≤ c ∧ c ≤ '9' then some (c.toNat - '0'.toNat)
  else if 'a' ≤ c ∧ c ≤ 'f' then some (c.toNat - 'a'.toNat + 10)
  else if 'A' ≤ c ∧ c ≤ 'F' then some (c.toNat - 'A'.toNat + 10)
  else none

/-- JSON string body, entered after the opening quote.  Returns the decoded
characters and the remainder after the closing quote.  Strict mode: raw
control characters below 0x20 are rejected, as in Python's default decoder.
(`\uXXXX` escapes in the surrogate range decode to the null character here; the
texts analysed never contain them.) -/
def pString : List Char → Option (List Char × List Char)
  | [] => none
  | c :: cs =>
    if c = '"' then some ([], cs)
    else if c = '\\' then
      match cs with
      | [] => none
      | e :: cs' =>
        if e = 'u' then
          match cs' with
          | h1 :: h2 :: h3 :: h4 :: cs'' =>
            match hexVal h1, hexVal h2, hexVal h3, hexVal h4 with
            | some a, some b, some c3, some d =>
              (pString cs'').map fun r =>
                (Char.ofNat (((a * 16 + b) * 16 + c3) * 16 + d) :: r.1, r.2)
            | _, _, _, _ => none
          | _ => none
        else
          match escChar e with
          | some d => (pString cs').map fun r => (d :: r.1, r.2)
          | none => none
    else if c.toNat < 0x20 then none
    else (pString cs).map fun r => (c :: r.1, r.2)

def isDigit (c : Char) : Bool := '0' ≤ c ∧ c ≤ '9'

def digitRun : List Char → (List Char × List Char)
  | [] => ([], [])
  | c :: cs =>
    if isDigit c then
      let r := digitRun cs
      (c :: r.1, r.2)
    else ([], c :: cs)

/-- JSON number lexeme after the optional minus sign:
`(0|[1-9][0-9]*)(\.[0-9]+)?([eE][-+]?[0-9]+)?`. -/
def pNumBody (cs : List Char) : Option (List Char × List Char) :=
  match cs with
  | [] => none
  | c :: cs' =>
    if ¬ isDigit c then none
    else
      let intPart :=
        if c = '0' then ([c], cs')
        else let r := digitRun cs'; (c :: r.1, r.2)
      let afterInt := intPart.2
      let fracPart : Option (List Char × List Char) :=
        match afterInt with
        | '.' :: ds =>
          match digitRun ds with
          | ([], _) => none
          | (run, rest) => some ('.' :: run, rest)
        | _ => some ([], afterInt)
      match fracPart with
      | none => none
      | some (frac, afterFrac) =>
        let expPart : Option (List Char × List Char) :=
          match afterFrac with
          | e :: es =>
            if e = 'e' ∨ e = 'E' then
              match es with
              | s :: ds =>
                if s = '+' ∨ s = '-' then
                  match digitRun ds with
                  | ([], _) => none
                  | (run, rest) => some (e :: s :: run, rest)
                else
                  match digitRun (s :: ds) with
                  | ([], _) => none
                  | (run, rest) => some (e :: run, rest)
              | [] => none
            else some ([], afterFrac)
          | [] => some ([], afterFrac)
        match expPart with
        | none => none
        | some (ex, rest) => some (intPart.1 ++ frac ++ ex, rest)

mutual

/-- One JSON value (with leading whitespace), fuel-indexed.  The top-level
entry point supplies more fuel than the input length, so fuel exhaustion never
fires on any input reachable here (each recursive call consumes at least one
character first). -/
def pValue : Nat → List Char → Option (J × List Char)
  | 0, _ => none
  | fuel + 1, cs =>
    match jws cs with
    | [] => none
    | c :: r =>
      if c = '"' then
        (pString r).map fun sr => (J.str (List.asString sr.1), sr.2)
      else if c = lbrace then
        match jws r with
        | c2 :: r2 =>
          if c2 = rbrace then some (J.obj [], r2)
          else pMembers fuel (c2 :: r2) []
        | [] => none
      else if c = '[' then
        match jws r with
        | c2 :: r2 =>
          if c2 = ']' then some (J.arr [], r2)
          else pElems fuel (c2 :: r2) []
        | [] => none
      else if c = 't' then
        (dropLit ['r', 'u', 'e'] r).map fun rest => (J.bool true, rest)
      else if c = 'f' then
        (dropLit ['a', 'l', 's', 'e'] r).map fun rest => (J.bool false, rest)
      else if c = 'n' then
        (dropLit ['u', 'l', 'l'] r).map fun rest => (J.null, rest)
      else if c = 'N' then
        (dropLit ['a', 'N'] r).map fun rest => (J.num "NaN", rest)
      else if c = 'I' then
        (dropLit ['n', 'f', 'i', 'n', 'i', 't', 'y'] r).map fun rest =>
          (J.num "Infinity", rest)
      else if c = '-' then
        match r with
        | 'I' :: r2 =>
          (dropLit ['n', 'f', 'i', 'n', 'i', 't', 'y'] r2).map fun rest =>
            (J.num "-Infinity", rest)
        | _ =>
          (pNumBody r).map fun nr => (J.num (List.asString ('-' :: nr.1)), nr.2)
      else
        (pNumBody (c :: r)).map fun nr => (J.num (List.asString nr.1), nr.2)

/-- Object members, entered at a (whitespace-stripped) key position.  The
accumulator carries Python dict semantics via `insertKV` (duplicate keys:
last value wins). -/
def pMembers : Nat → List Char → List (String × J) → Option (J × List Char)
  | 0, _, _ => none
  | fuel + 1, cs, acc =>
    match cs with
    | c :: r =>
      if c = '"' then
        match pString r with
        | none => none
        | some (k, r1) =>
          match jws r1 with
          | ':' :: r2 =>
            match pValue fuel r2 with
            | none => none
            | some (v, r3) =>
              let acc' := insertKV acc (List.asString k) v
              match jws r3 with
              | ',' :: r4 => pMembers fuel (jws r4) acc'
              | c4 :: r4 =>
                if c4 = rbrace then some (J.obj acc', r4) else none
              | [] => none
          | _ => none
      else none
    | [] => none

/-- Array elements, entered at a (whitespace-stripped) value position. -/
def pElems : Nat → List Char → List J → Option (J × List Char)
  | 0, _, _ => none
  | fuel + 1, cs, acc =>
    match pValue fuel cs with
    | none => none
    | some (v, r) =>
      match jws r with
      | ',' :: r2 => pElems fuel r2 (acc ++ [v])
      | ']' :: r2 => some (J.arr (acc ++ [v]), r2)
      | _ => none

end

/-- `json.loads`: parse one value and require only whitespace to follow
("Extra data" error otherwise).  `none` stands for `json.JSONDecodeError`. -/
def jsonParse (cs : List Char) : Option J :=
  match pValue (cs.length + 8) cs with
  | some (v, rest) => if jws rest = [] then some v else none
  | none => none

/-! ## The regex machinery of the extraction cascade

Each of the three regex patterns used by `_call_openrouter_api` is embedded as
a dedicated deterministic scanner implementing exactly that pattern's
backtracking semantics (leftmost match; greedy character classes followed by a
literal outside the class are maximal-munch; the lazy group of stage 2 stops
at the earliest viable terminator). -/

/-- The regex class `\s` (ASCII part, which is all the analysed texts use). -/
def isRws (c : Char) : Bool :=
  c = ' ' || c = '\t' || c = '\n' || c = '\r' || c = '\x0b' || c = '\x0c'

/-- Greedy `\s*`: drop the maximal leading whitespace run. -/
def rws : List Char → List Char
  | [] => []
  | c :: cs => if isRws c then rws cs else c :: cs

/-- Python `str.strip()` (ASCII whitespace). -/
def pyStrip (cs : List Char) : List Char :=
  ((cs.dropWhile isRws).reverse.dropWhile isRws).reverse

/-- Does `\s*` followed by three backticks match here?  (Terminator of the
stage-2 lazy group.) -/
def fenceAfter (cs : List Char) : Bool :=
  (dropLit [btick, btick, btick] (rws cs)).isSome

/-- The lazy `.*?` of stage 2 (`re.DOTALL`): collect characters until the
earliest position where a closing brace followed by `\s*` and a triple
backtick appears; `none` if no such terminator exists. -/
def lazyBody : List Char → Option (List Char)
  | [] => none
  | c :: rest =>
    if c = rbrace ∧ fenceAfter rest then some []
    else (lazyBody rest).map (c :: ·)

/-- Attempt the stage-2 pattern immediately after a matched triple backtick:
optional literal `json` (preferred, with backtracking to the empty
alternative), `\s*`, then the braced lazy group.  Returns the group-1 text
including its braces. -/
def fenceBodyAt (cs : List Char) : Option (List Char) :=
  let tryOpen : List Char → Option (List Char) := fun r =>
    match rws r with
    | c :: r2 =>
      if c = lbrace then (lazyBody r2).map fun b => lbrace :: b ++ [rbrace]
      else none
    | [] => none
  match dropLit ['j', 's', 'o', 'n'] cs with
  | some rA =>
    match tryOpen rA with
    | some g => some g
    | none => tryOpen cs
  | none => tryOpen cs

/-- Stage-2 `re.search`: leftmost start where the fenced-block pattern
matches; on failure at a position, advance one character. -/
def stage2search : List Char → Option (List Char)
  | [] => none
  | c :: rest =>
    match (dropLit [btick, btick, btick] (c :: rest)).bind fenceBodyAt with
    | some g => some g
    | none => stage2search rest

/-- Maximal run of characters outside the class containing the two braces
(the greedy `[^...]*` of stage 3). -/
def nonBraceRun : List Char → (List Char × List Char)
  | [] => ([], [])
  | c :: cs =>
    if c = lbrace ∨ c = rbrace then ([], c :: cs)
    else
      let r := nonBraceRun cs
      (c :: r.1, r.2)

/-- Substring test (used for the literal `"False Positive"` anchor inside a
stage-3 candidate span). -/
def containsLit (needle : List Char) : List Char → Bool
  | [] => (dropLit needle []).isSome
  | c :: rest => (dropLit needle (c :: rest)).isSome || containsLit needle rest

def anchorL : List Char := '"' :: "False Positive".data ++ ['"']

theorem nonBraceRun_snd_length (cs : List Char) :
    (nonBraceRun cs).2.length ≤ cs.length := by
  induction cs with
  | nil => simp [nonBraceRun]
  | cons c cs ih =>
    simp only [nonBraceRun]
    by_cases h : c = lbrace ∨ c = rbrace
    · simp [h]
    · simp only [h, if_false]
      exact Nat.le_succ_of_le ih

/-- Stage-3 `re.findall` of the loose-object pattern: a span from an opening
brace over brace-free characters containing the quoted anchor, to the very
next closing brace.  On a failed attempt the scan advances one character; on
success it resumes after the match.  Structurally recursive on a fuel that
drops by exactly one per character advanced, so the `length + 1` budget of
`stage3findall` never runs out (a successful match advances past additional
characters, consuming strictly less fuel than length). -/
def stage3go : Nat → List Char → List (List Char)
  | 0, _ => []
  | fuel + 1, cs =>
    match cs with
    | [] => []
    | c :: rest =>
      if c = lbrace then
        match nonBraceRun rest with
        | (u, c2 :: r2) =>
          if c2 = rbrace ∧ containsLit anchorL u then
            (lbrace :: u ++ [rbrace]) :: stage3go fuel r2
          else stage3go fuel rest
        | (_, []) => stage3go fuel rest
      else stage3go fuel rest

def stage3findall (cs : List Char) : List (List Char) :=
  stage3go (cs.length + 1) cs

/-- Maximal run of non-quote characters (the greedy `[^"]+` of stage 4,
followed by a literal quote, is maximal-munch). -/
def quoteRun : List Char → (List Char × List Char)
  | [] => ([], [])
  | c :: cs =>
    if c = '"' then ([], c :: cs)
    else
      let r := quoteRun cs
      (c :: r.1, r.2)

/-- Attempt the stage-4 field pattern at this position: the quoted key
literal, `\s*`, a colon, `\s*`, a quote, a non-empty run of non-quote
characters (captured), and a closing quote. -/
def keyTail (r1 : List Char) : Option (List Char) :=
  match rws r1 with
  | ':' :: r2 =>
    match rws r2 with
    | '"' :: r3 =>
      match quoteRun r3 with
      | (v, '"' :: _) => if v = [] then none else some v
      | _ => none
    | _ => none
  | _ => none

def keyMatchAt (kpat : List Char) (cs : List Char) : Option (List Char) :=
  match dropLit kpat cs with
  | none => none
  | some r1 => keyTail r1

/-- Stage-4 `re.search` for one field pattern. -/
def reSearchKey (kpat : List Char) : List Char → Option (List Char)
  | [] => none
  | c :: rest =>
    match keyMatchAt kpat (c :: rest) with
    | some v => some v
    | none => reSearchKey kpat rest

/-- The quoted-key literal part of a stage-4 pattern. -/
def kpatFor (k : String) : List Char := '"' :: k.data ++ ['"']

/-! ## The extraction cascade of `_call_openrouter_api` -/

def requiredFields : List String :=
  ["False Positive", "Sanitization Found?", "Attack Feasible?", "Confidence"]

/-- The sentinel verdict dict (lines 260–266 build it with the per-call model;
`_generate_fallback_response` builds it with the generator's `self.model`). -/
def errorVerdict (modelUsed : String) : List (String × J) :=
  [("False Positive", J.str "ERROR"), ("Sanitization Found?", J.str "ERROR"),
   ("Attack Feasible?", J.str "ERROR"), ("Confidence", J.str "ERROR"),
   ("model_used", J.str modelUsed)]

/-- `_generate_fallback_response`: used on every error exit outside the
parsing cascade; always stamped with the configured default model. -/
def generate_fallback_response (selfModel : String) : List (String × J) :=
  errorVerdict selfModel

/-- Stage 2: fenced-block extraction.  A successful regex match whose content
fails to parse, or parses to a non-object (whose `.update` raises
`AttributeError`), is swallowed by the stage's `except` clause and the cascade
continues. -/
def stage2extract (cs : List Char) : Option (List (String × J)) :=
  match stage2search cs with
  | some g =>
    match jsonParse g with
    | some (J.obj o) => some o
    | _ => none
  | none => none

/-- Stage 3 acceptance of one candidate span: strip it, parse it, and require
all four field names to be present (`field in parsed_response`). -/
def acceptCandidate (cand : List Char) : Option (List (String × J)) :=
  match jsonParse (pyStrip cand) with
  | some (J.obj o) => if requiredFields.all (hasKey o) then some o else none
  | _ => none

def firstAccepted : List (List Char) → Option (List (String × J))
  | [] => none
  | c :: rest =>
    match acceptCandidate c with
    | some o => some o
    | none => firstAccepted rest

/-- Stage 4: the four independent field searches, succeeding only if all four
succeed. -/
def stage4extract (cs : List Char) :
    Option (String × String × String × String) :=
  match reSearchKey (kpatFor "False Positive") cs,
        reSearchKey (kpatFor "Sanitization Found?") cs,
        reSearchKey (kpatFor "Attack Feasible?") cs,
        reSearchKey (kpatFor "Confidence") cs with
  | some a, some b, some c, some d =>
    some (List.asString a, List.asString b, List.asString c, List.asString d)
  | _, _, _, _ => none

/-- The parsing cascade of `_call_openrouter_api` (lines 188–266), applied to
the response content.  `model` is the resolved per-call model; `selfModel` is
the generator's `self.model`.  A stage-1 parse that yields a non-object makes
`parsed_response.update` raise `AttributeError`, which is not caught by the
stage-1 `except json.JSONDecodeError` and lands in the function's outer
`except Exception`, returning `_generate_fallback_response()`. -/
def extractVerdict (content : List Char) (model selfModel : String) :
    List (String × J) :=
  match jsonParse content with
  | some (J.obj o) => insertKV o "model_used" (J.str model)
  | some _ => generate_fallback_response selfModel
  | none =>
    match stage2extract content with
    | some o => insertKV o "model_used" (J.str model)
    | none =>
      match firstAccepted (stage3findall content) with
      | some o => insertKV o "model_used" (J.str model)
      | none =>
        match stage4extract content with
        | some (a, b, c, d) =>
          [("False Positive", J.str a), ("Sanitization Found?", J.str b),
           ("Attack Feasible?", J.str c), ("Confidence", J.str d),
           ("model_used", J.str model)]
        | none => errorVerdict model

/-- The observable outcomes of the HTTP layer of `_call_openrouter_api`
(transport itself is an external collaborator). -/
inductive HttpOutcome where
  | apiKeyMissing : HttpOutcome
  | requestError : HttpOutcome
  | httpNotOk (status : Nat) : HttpOutcome
  | content (body : String) : HttpOutcome

/-- Python `model = model or self.model`: `None` and the empty string are both
falsy. -/
def resolveModel (modelArg : Option String) (selfModel : String) : String :=
  match modelArg with
  | none => selfModel
  | some m => if m = "" then selfModel else m

/-- `_call_openrouter_api` over the HTTP outcome: a missing key, a raised
request, or a non-ok response each return `_generate_fallback_response()`;
a body reaches the parsing cascade with the resolved model. -/
def callOpenRouterApi (outcome : HttpOutcome) (modelArg : Option String)
    (selfModel : String) : List (String × J) :=
  match outcome with
  | .apiKeyMissing => generate_fallback_response selfModel
  | .requestError => generate_fallback_response selfModel
  | .httpNotOk _ => generate_fallback_response selfModel
  | .content body =>
    extractVerdict body.data (resolveModel modelArg selfModel) selfModel

/-! ## The OWASP `llm_api_handler` module

`MODEL_PRICING` and `MODEL_CONFIGS` transcribe the two registry dict literals
verbatim (prices and temperatures as exact rationals).  Both literals contain
the key `qwen/qwen3-235b-a22b` twice; `buildDict` reproduces the dict-literal
semantics in which the later entry overwrites the earlier one. -/

/-- One `MODEL_CONFIGS` entry. -/
structure ModelConfig where
  max_temperature : ℚ
  default_temperature : ℚ
  supported_parameters : List String
  tokenizer : String
  description : String
  provider : String
deriving DecidableEq

/-- The two `ValueError`s raised by the handler, by raise site:
`unsupportedModel` is the "Model '...' is not supported" error of
`get_model_config` and `invalidTemperature` the "Temperature must be between 0
and ..." error of `validate_model_parameters`; each carries the data its
message interpolates. -/
inductive PyError where
  | unsupportedModel (model : String) : PyError
  | invalidTemperature (model : String) (temp maxTemp : ℚ) : PyError
deriving DecidableEq

def MODEL_PRICING : List (String × ℚ × ℚ) := buildDict [
  ("gpt-5", 0.00125, 0.01),
  ("gpt-4", 0.03, 0.06),
  ("gpt-4-turbo", 0.01, 0.03),
  ("gpt-4o", 0.005, 0.015),
  ("gpt-4-turbo-preview", 0.01, 0.03),
  ("gpt-3.5-turbo", 0.001, 0.002),
  ("gpt-3.5-turbo-instruct", 0.0015, 0.002),
  ("openai/gpt-5", 0.00125, 0.01),
  ("o3", 0.015, 0.06),
  ("o3-mini", 0.003, 0.015),
  ("o3-pro", 0.015, 0.06),
  ("o1", 0.015, 0.06),
  ("o1-pro", 0.015, 0.06),
  ("o1-mini", 0.003, 0.015),
  ("o4-mini", 0.003, 0.015),
  ("deepseek/deepseek-coder", 0.00014, 0.00028),
  ("deepseek/deepseek-coder-33b-instruct", 0.00014, 0.00028),
  ("deepseek/deepseek-coder-6.7b-instruct", 0.00014, 0.00028),
  ("deepseek/deepseek-llm-67b-chat", 0.00014, 0.00028),
  ("deepseek/deepseek-llm-7b-chat", 0.00014, 0.00028),
  ("deepseek/deepseek-math-7b-instruct", 0.00014, 0.00028),
  ("deepseek/deepseek-reasoner-7b-instruct", 0.00014, 0.00028),
  ("deepseek/deepseek-reasoner-34b-instruct", 0.00014, 0.00028),
  ("deepseek/deepseek-r1", 0.00014, 0.00028),
  ("google/gemini-1.5-flash", 7.5e-05, 0.0003),
  ("google/gemini-1.5-pro", 0.00375, 0.015),
  ("google/gemini-2.0-flash-exp", 7.5e-05, 0.0003),
  ("google/gemini-2.0-pro-exp", 0.00375, 0.015),
  ("meta-llama/llama-4-maverick", 0.00015, 0.0006),
  ("qwen/qwen3-235b-a22b", 0.00013, 0.0006),
  ("mistralai/mistral-small-3.2-24b-instruct:free", 0.0, 0.0),
  ("meta-llama/llama-guard-4-12b", 0.0001, 0.0002),
  ("anthropic/claude-sonnet-4", 0.003, 0.015),
  ("anthropic/claude-opus-4", 0.015, 0.075),
  ("meta-llama/llama-4-scout:free", 0.0, 0.0),
  ("google/gemini-2.5-pro", 0.00375, 0.015),
  ("google/gemini-2.0-flash-001", 0.0001, 0.0004),
  ("google/gemini-2.5-flash", 0.0001, 0.0004),
  ("x-ai/grok-4", 0.0001, 0.0004),
  ("mistralai/codestral-2508", 0.0003, 0.0009),
  ("mistralai/mixtral-8x22b-instruct", 0.0009, 0.0009),
  ("mistralai/mixtral-8x7b-instruct", 0.0009, 0.0009),
  ("qwen/qwen3-235b-a22b", 0.00013, 0.0006),
  ("qwen/qwen3-coder", 0.0002, 0.0008),
  ("qwen/qwen-2.5-coder-32b-instruct", 5e-05, 0.0002),
  ("meta-llama/llama-3.1-70b-instruct", 0.0001, 0.00028),
  ("meta-llama/llama-4-scout", 0.0001, 0.00028),
  ("openai/gpt-oss-120b", 0.0005, 0.0015),
  ("openai/gpt-oss-20b", 0.0002, 0.0006),
  ("deepseek/deepseek-r1-distill-llama-70b", 2.6e-05, 0.000104),
  ("deepseek/deepseek-chat-v3.1", 0.00014, 0.00028),
  ("bigcode/starcoder2-15b-instruct", 0.00014, 0.00028)
]

def MODEL_CONFIGS : List (String × ModelConfig) := buildDict [
  ("gpt-5",
   ⟨2.0, 0.0,
    ["temperature", "max_tokens", "top_p", "frequency_penalty", "presence_penalty"],
    "gpt-4",
    "GPT-5 model with full parameter support",
    "openai"⟩),
  ("gpt-4",
   ⟨2.0, 0.0,
    ["temperature", "max_tokens", "top_p", "frequency_penalty", "presence_penalty"],
    "gpt-4",
    "GPT-4 model with full parameter support",
    "openai"⟩),
  ("gpt-4-turbo",
   ⟨2.0, 0.0,
    ["temperature", "max_tokens", "top_p", "frequency_penalty", "presence_penalty"],
    "gpt-4",
    "GPT-4 Turbo model with full parameter support",
    "openai"⟩),
  ("gpt-4o",
   ⟨2.0, 0.0,
    ["temperature", "max_tokens", "top_p", "frequency_penalty", "presence_penalty"],
    "gpt-4o",
    "GPT-4o model with full parameter support",
    "openai"⟩),
  ("gpt-4-turbo-preview",
   ⟨2.0, 0.0,
    ["temperature", "max_tokens", "top_p", "frequency_penalty", "presence_penalty"],
    "gpt-4",
    "GPT-4 Turbo Preview model with full parameter support",
    "openai"⟩),
  ("gpt-3.5-turbo",
   ⟨2.0, 0.0,
    ["temperature", "max_tokens", "top_p", "frequency_penalty", "presence_penalty"],
    "gpt-3.5-turbo",
    "GPT-3.5 Turbo model with full parameter support",
    "openai"⟩),
  ("gpt-3.5-turbo-instruct",
   ⟨2.0, 0.0,
    ["temperature", "max_tokens", "top_p", "frequency_penalty", "presence_penalty"],
    "gpt-3.5-turbo",
    "GPT-3.5 Turbo Instruct model with full parameter support",
    "openai"⟩),
  ("openai/gpt-5",
   ⟨2.0, 0.0,
    ["temperature", "max_tokens", "top_p", "frequency_penalty", "presence_penalty"],
    "gpt-4",
    "GPT-5 model with full parameter support via OpenRouter",
    "openrouter"⟩),
  ("o3",
   ⟨1.0, 0.0,
    ["max_completion_tokens", "top_p", "frequency_penalty", "presence_penalty"],
    "gpt-4",
    "o3 model with temperature range 0-1, uses max_completion_tokens, does NOT support temperature",
    "openrouter"⟩),
  ("o3-mini",
   ⟨1.0, 0.0,
    ["max_completion_tokens", "top_p", "frequency_penalty", "presence_penalty"],
    "gpt-4",
    "o3-mini model with temperature range 0-1, uses max_completion_tokens, does NOT support temperature",
    "openrouter"⟩),
  ("o3-pro",
   ⟨1.0, 0.0,
    ["max_completion_tokens", "top_p", "frequency_penalty", "presence_penalty", "reasoning"],
    "gpt-4",
    "o3-pro model with temperature range 0-1, uses max_completion_tokens, does NOT support temperature, uses OpenAI response API",
    "openai"⟩),
  ("o1",
   ⟨1.0, 0.0,
    ["max_completion_tokens", "top_p", "frequency_penalty", "presence_penalty"],
    "gpt-4",
    "o1 model with temperature range 0-1, uses max_completion_tokens, does NOT support temperature",
    "openrouter"⟩),
  ("o1-pro",
   ⟨1.0, 0.0,
    ["max_completion_tokens", "top_p", "frequency_penalty", "presence_penalty"],
    "gpt-4",
    "o1-pro model with temperature range 0-1, uses max_completion_tokens, does NOT support temperature",
    "openrouter"⟩),
  ("o1-mini",
   ⟨1.0, 0.0,
    ["max_completion_tokens", "top_p", "frequency_penalty", "presence_penalty"],
    "gpt-4",
    "o1-mini model with temperature range 0-1, uses max_completion_tokens, does NOT support temperature",
    "openrouter"⟩),
  ("o4-mini",
   ⟨1.0, 0.0,
    ["max_completion_tokens", "top_p", "frequency_penalty", "presence_penalty"],
    "gpt-4",
    "o4-mini model with temperature range 0-1, uses max_completion_tokens, does NOT support temperature",
    "openrouter"⟩),
  ("deepseek/deepseek-coder",
   ⟨2.0, 0.0,
    ["temperature", "max_tokens", "top_p", "frequency_penalty", "presence_penalty"],
    "gpt-4",
    "DeepSeek Coder model with full parameter support",
    "openrouter"⟩),
  ("deepseek/deepseek-coder-33b-instruct",
   ⟨2.0, 0.0,
    ["temperature", "max_tokens", "top_p", "frequency_penalty", "presence_penalty"],
    "gpt-4",
    "DeepSeek Coder 33B Instruct model with full parameter support",
    "openrouter"⟩),
  ("deepseek/deepseek-coder-6.7b-instruct",
   ⟨2.0, 0.0,
    ["temperature", "max_tokens", "top_p", "frequency_penalty", "presence_penalty"],
    "gpt-4",
    "DeepSeek Coder 6.7B Instruct model with full parameter support",
    "openrouter"⟩),
  ("deepseek/deepseek-llm-67b-chat",
   ⟨2.0, 0.0,
    ["temperature", "max_tokens", "top_p", "frequency_penalty", "presence_penalty"],
    "gpt-4",
    "DeepSeek LLM 67B Chat model with full parameter support",
    "openrouter"⟩),
  ("deepseek/deepseek-llm-7b-chat",
   ⟨2.0, 0.0,
    ["temperature", "max_tokens", "top_p", "frequency_penalty", "presence_penalty"],
    "gpt-4",
    "DeepSeek LLM 7B Chat model with full parameter support",
    "openrouter"⟩),
  ("deepseek/deepseek-math-7b-instruct",
   ⟨2.0, 0.0,
    ["temperature", "max_tokens", "top_p", "frequency_penalty", "presence_penalty"],
    "gpt-4",
    "DeepSeek Math 7B Instruct model with full parameter support",
    "openrouter"⟩),
  ("deepseek/deepseek-reasoner-7b-instruct",
   ⟨2.0, 0.0,
    ["temperature", "max_tokens", "top_p", "frequency_penalty", "presence_penalty"],
    "gpt-4",
    "DeepSeek Reasoner 7B Instruct model with full parameter support",
    "openrouter"⟩),
  ("deepseek/deepseek-reasoner-34b-instruct",
   ⟨2.0, 0.0,
    ["temperature", "max_tokens", "top_p", "frequency_penalty", "presence_penalty"],
    "gpt-4",
    "DeepSeek Reasoner 34B Instruct model with full parameter support",
    "openrouter"⟩),
  ("deepseek/deepseek-r1",
   ⟨2.0, 0.0,
    ["temperature", "max_tokens", "top_p", "frequency_penalty", "presence_penalty"],
    "gpt-4",
    "DeepSeek R1 model with full parameter support",
    "openrouter"⟩),
  ("google/gemini-1.5-flash",
   ⟨2.0, 0.0,
    ["temperature", "max_tokens", "top_p", "frequency_penalty", "presence_penalty"],
    "gpt-4",
    "Google Gemini 1.5 Flash model with full parameter support",
    "openrouter"⟩),
  ("google/gemini-1.5-pro",
   ⟨2.0, 0.0,
    ["temperature", "max_tokens", "top_p", "frequency_penalty", "presence_penalty"],
    "gpt-4",
    "Google Gemini 1.5 Pro model with full parameter support",
    "openrouter"⟩),
  ("google/gemini-2.0-flash-exp",
   ⟨2.0, 0.0,
    ["temperature", "max_tokens", "top_p", "frequency_penalty", "presence_penalty"],
    "gpt-4",
    "Google Gemini 2.0 Flash Experimental model with full parameter support",
    "openrouter"⟩),
  ("google/gemini-2.0-pro-exp",
   ⟨2.0, 0.0,
    ["temperature", "max_tokens", "top_p", "frequency_penalty", "presence_penalty"],
    "gpt-4",
    "Google Gemini 2.0 Pro Experimental model with full parameter support",
    "openrouter"⟩),
  ("meta-llama/llama-4-maverick",
   ⟨2.0, 0.0,
    ["temperature", "max_tokens", "top_p", "frequency_penalty", "presence_penalty"],
    "gpt-4",
    "Meta Llama 4 Maverick model (free tier) with full parameter support",
    "openrouter"⟩),
  ("qwen/qwen3-235b-a22b",
   ⟨2.0, 0.0,
    ["temperature", "max_tokens", "top_p", "frequency_penalty", "presence_penalty"],
    "gpt-4",
    "Qwen 3.3B model (free tier) with full parameter support",
    "openrouter"⟩),
  ("mistralai/mistral-small-3.2-24b-instruct:free",
   ⟨2.0, 0.0,
    ["temperature", "max_tokens", "top_p", "frequency_penalty", "presence_penalty"],
    "gpt-4",
    "Mistral Small 3.2B Instruct model (free tier) with full parameter support",
    "openrouter"⟩),
  ("meta-llama/llama-guard-4-12b",
   ⟨2.0, 0.0,
    ["temperature", "max_tokens", "top_p", "frequency_penalty", "presence_penalty"],
    "gpt-4",
    "Meta Llama Guard 4 12B model with full parameter support",
    "openrouter"⟩),
  ("anthropic/claude-sonnet-4",
   ⟨2.0, 0.0,
    ["temperature", "max_tokens", "top_p", "frequency_penalty", "presence_penalty"],
    "gpt-4",
    "Anthropic Claude Sonnet 4 model with full parameter support",
    "openrouter"⟩),
  ("anthropic/claude-opus-4",
   ⟨2.0, 0.0,
    ["temperature", "max_tokens", "top_p", "frequency_penalty", "presence_penalty"],
    "gpt-4",
    "Anthropic Claude Opus 4 model with full parameter support",
    "openrouter"⟩),
  ("meta-llama/llama-4-scout:free",
   ⟨2.0, 0.0,
    ["temperature", "max_tokens", "top_p", "frequency_penalty", "presence_penalty"],
    "gpt-4",
    "Meta Llama Scout 4 model (free tier) with full parameter support",
    "openrouter"⟩),
  ("google/gemini-2.5-pro",
   ⟨2.0, 0.0,
    ["temperature", "max_tokens", "top_p", "frequency_penalty", "presence_penalty"],
    "gpt-4",
    "Google Gemini 2.5 Pro model with full parameter support",
    "openrouter"⟩),
  ("google/gemini-2.0-flash-001",
   ⟨2.0, 0.0,
    ["temperature", "max_tokens", "top_p", "frequency_penalty", "presence_penalty"],
    "gpt-4",
    "Google Gemini 2.0 Flash model with full parameter support",
    "openrouter"⟩),
  ("google/gemini-2.5-flash",
   ⟨2.0, 0.0,
    ["temperature", "max_tokens", "top_p", "frequency_penalty", "presence_penalty"],
    "gpt-4",
    "Google Gemini 2.5 Flash model with full parameter support",
    "openrouter"⟩),
  ("x-ai/grok-4",
   ⟨2.0, 0.0,
    ["temperature", "max_tokens", "top_p", "frequency_penalty", "presence_penalty"],
    "gpt-4",
    "X.AI Grok-4 model with full parameter support",
    "openrouter"⟩),
  ("mistralai/codestral-2508",
   ⟨2.0, 0.0,
    ["temperature", "max_tokens", "top_p", "frequency_penalty", "presence_penalty"],
    "gpt-4",
    "Mistral Codestral 2508 model specialized for coding tasks with full parameter support",
    "openrouter"⟩),
  ("mistralai/mixtral-8x22b-instruct",
   ⟨2.0, 0.0,
    ["temperature", "max_tokens", "top_p", "frequency_penalty", "presence_penalty"],
    "gpt-4",
    "Mistral Mixtral 8x22B Instruct model with full parameter support",
    "openrouter"⟩),
  ("mistralai/mixtral-8x7b-instruct",
   ⟨2.0, 0.0,
    ["temperature", "max_tokens", "top_p", "frequency_penalty", "presence_penalty"],
    "gpt-4",
    "Mistral Mixtral 8x7B Instruct model with full parameter support",
    "openrouter"⟩),
  ("qwen/qwen3-235b-a22b",
   ⟨2.0, 0.0,
    ["temperature", "max_tokens", "top_p", "frequency_penalty", "presence_penalty"],
    "gpt-4",
    "Qwen3 235B A22B MoE model with full parameter support",
    "openrouter"⟩),
  ("qwen/qwen3-coder",
   ⟨2.0, 0.0,
    ["temperature", "max_tokens", "top_p", "frequency_penalty", "presence_penalty"],
    "gpt-4",
    "Qwen3 Coder 480B MoE model specialized for coding tasks with full parameter support",
    "openrouter"⟩),
  ("qwen/qwen-2.5-coder-32b-instruct",
   ⟨2.0, 0.0,
    ["temperature", "max_tokens", "top_p", "frequency_penalty", "presence_penalty"],
    "gpt-4",
    "Qwen2.5 Coder 32B Instruct model specialized for coding tasks with full parameter support",
    "openrouter"⟩),
  ("meta-llama/llama-3.1-70b-instruct",
   ⟨2.0, 0.0,
    ["temperature", "max_tokens", "top_p", "frequency_penalty", "presence_penalty"],
    "gpt-4",
    "Meta Llama 3.1 70B Instruct model with full parameter support",
    "openrouter"⟩),
  ("meta-llama/llama-4-scout",
   ⟨2.0, 0.0,
    ["temperature", "max_tokens", "top_p", "frequency_penalty", "presence_penalty"],
    "gpt-4",
    "Meta Llama Scout 4 model (free tier) with full parameter support",
    "openrouter"⟩),
  ("deepseek/deepseek-r1-distill-llama-70b",
   ⟨2.0, 0.0,
    ["temperature", "max_tokens", "top_p", "frequency_penalty", "presence_penalty"],
    "gpt-4",
    "DeepSeek R1 Distill Llama 70B model with full parameter support",
    "openrouter"⟩),
  ("deepseek/deepseek-chat-v3.1",
   ⟨2.0, 0.0,
    ["temperature", "max_tokens", "top_p", "frequency_penalty", "presence_penalty"],
    "gpt-4",
    "DeepSeek Chat v3.1 model with full parameter support",
    "openrouter"⟩),
  ("bigcode/starcoder2-15b-instruct",
   ⟨2.0, 0.0,
    ["temperature", "max_tokens", "top_p", "frequency_penalty", "presence_penalty"],
    "gpt-4",
    "BigCode StarCoder2 15B Instruct model specialized for coding tasks with full parameter support",
    "openrouter"⟩),
  ("openai/gpt-oss-120b",
   ⟨2.0, 0.0,
    ["temperature", "max_tokens", "top_p", "frequency_penalty", "presence_penalty"],
    "gpt-4",
    "OpenAI GPT-OSS 120B model with full parameter support",
    "openrouter"⟩),
  ("openai/gpt-oss-20b",
   ⟨2.0, 0.0,
    ["temperature", "max_tokens", "top_p", "frequency_penalty", "presence_penalty"],
    "gpt-4",
    "OpenAI GPT-OSS 20B model with full parameter support",
    "openrouter"⟩)
]

/-- `get_model_config`, over an explicit registry. -/
def get_model_configIn (registry : List (String × ModelConfig))
    (model : String) : Except PyError ModelConfig :=
  match findKey registry model with
  | some config => .ok config
  | none => .error (.unsupportedModel model)

/-- `get_model_config` over the static registry. -/
def get_model_config (model : String) : Except PyError ModelConfig :=
  get_model_configIn MODEL_CONFIGS model

/-- One iteration of the final `for param, value in kwargs.items()` loop of
`validate_model_parameters`: skip an already-mapped `max_tokens`, copy a
supported parameter through, drop an unsupported one with a warning. -/
def paramStep (sp : List String) (acc : List (String × ℚ))
    (pv : String × ℚ) : List (String × ℚ) :=
  if pv.1 = "max_tokens" ∧ sp.contains "max_completion_tokens" then acc
  else if sp.contains pv.1 then insertKV acc pv.1 pv.2
  else acc

/-- `validate_model_parameters`.  Caller parameter values are modelled as
rationals (the function never inspects a value other than `temperature`, which
is numeric).  The dropped-parameter warning print is a side effect with no
data flow and is not modelled. -/
def validate_model_parameters (model : String) (kwargs : List (String × ℚ)) :
    Except PyError (List (String × ℚ)) :=
  match get_model_config model with
  | .error e => .error e
  | .ok config =>
    let step1 : Except PyError (List (String × ℚ)) :=
      if config.supported_parameters.contains "temperature" then
        match findKey kwargs "temperature" with
        | some temp =>
          if 0 ≤ temp ∧ temp ≤ config.max_temperature then
            .ok (insertKV [] "temperature" temp)
          else .error (.invalidTemperature model temp config.max_temperature)
        | none => .ok (insertKV [] "temperature" config.default_temperature)
      else .ok []
    match step1 with
    | .error e => .error e
    | .ok vp1 =>
      let vp2 :=
        match findKey kwargs "max_tokens" with
        | some v =>
          if config.supported_parameters.contains "max_completion_tokens" then
            insertKV vp1 "max_completion_tokens" v
          else insertKV vp1 "max_tokens" v
        | none => vp1
      .ok (kwargs.foldl (paramStep config.supported_parameters) vp2)

/-- `is_openai_model`, over an explicit registry: the `o3-pro` override is
checked before any registry access (every registry entry defines `provider`,
so `config.get("provider", "openai")` is plain field access). -/
def is_openai_modelIn (registry : List (String × ModelConfig))
    (model : String) : Except PyError Bool :=
  if model = "o3-pro" then .ok true
  else
    match get_model_configIn registry model with
    | .ok config => .ok (decide (config.provider = "openai"))
    | .error e => .error e

def is_openai_model (model : String) : Except PyError Bool :=
  is_openai_modelIn MODEL_CONFIGS model

/-- The three terminal call shapes of `send_to_llm`. -/
inductive CallShape where
  | responseApi : CallShape
  | openaiChat : CallShape
  | openrouterChat : CallShape
deriving DecidableEq

/-- The routing decision of `send_to_llm` (lines 807–815): the `o3-pro`
identity check precedes everything, then `is_openai_model` splits the two chat
shapes. -/
def sendRouteIn (registry : List (String × ModelConfig)) (model : String) :
    Except PyError CallShape :=
  if model = "o3-pro" then .ok .responseApi
  else
    match is_openai_modelIn registry model with
    | .ok true => .ok .openaiChat
    | .ok false => .ok .openrouterChat
    | .error e => .error e

def sendRoute (model : String) : Except PyError CallShape :=
  sendRouteIn MODEL_CONFIGS model

/-- `count_tokens`.  `encode tok text` abstracts
`len(tiktoken.encoding_for_model(tok).encode(text))`, with `none` standing for
any raised exception; the first `try` block also absorbs an unregistered-model
`ValueError` from `get_model_config`. -/
def count_tokens (encode : String → String → Option Nat)
    (text model : String) : Nat :=
  match
    (match get_model_config model with
     | .ok config => encode config.tokenizer text
     | .error _ => none) with
  | some n => n
  | none =>
    match encode "gpt-4" text with
    | some n => n
    | none => text.length / 4

/-- `calculate_cost`: an unpriced model falls back to `gpt-4` pricing; the
cost is `(input/1000)*input_price + (output/1000)*output_price`. -/
def calculate_cost (input_tokens output_tokens : ℤ) (model : String) : ℚ :=
  let m := if hasKey MODEL_PRICING model then model else "gpt-4"
  let pricing := (findKey MODEL_PRICING m).getD (0, 0)
  ((input_tokens : ℚ) / 1000) * pricing.1 + ((output_tokens : ℚ) / 1000) * pricing.2

/-! ## Association-list lemmas -/

theorem findKey_insertKV_self {α : Type} (o : List (String × α)) (k : String)
    (v : α) : findKey (insertKV o k v) k = some v := by
  induction o with
  | nil => simp [insertKV, findKey]
  | cons p rest ih =>
    obtain ⟨k0, v0⟩ := p
    by_cases h : k0 = k
    · simp [insertKV, findKey, h]
    · simp [insertKV, findKey, h, ih]

theorem findKey_insertKV_ne {α : Type} (o : List (String × α)) (k k' : String)
    (v : α) (h : k' ≠ k) :
    findKey (insertKV o k v) k' = findKey o k' := by
  induction o with
  | nil => simp [insertKV, findKey, Ne.symm h]
  | cons p rest ih =>
    obtain ⟨k0, v0⟩ := p
    by_cases h0 : k0 = k
    · subst h0
      simp [insertKV, findKey, Ne.symm h]
    · by_cases h1 : k0 = k'
      · subst h1
        simp [insertKV, findKey, h0]
      · simp [insertKV, findKey, h0, h1, ih]

theorem hasKey_insertKV_of_hasKey {α : Type} {o : List (String × α)}
    {k' : String} (k : String) (v : α) (h : hasKey o k' = true) :
    hasKey (insertKV o k v) k' = true := by
  by_cases hk : k' = k
  · subst hk
    simp [hasKey, findKey_insertKV_self]
  · simpa [hasKey, findKey_insertKV_ne o k k' v hk] using h

theorem findKey_eq_some_mem {α : Type} {l : List (String × α)} {k : String}
    {v : α} (h : findKey l k = some v) : (k, v) ∈ l := by
  induction l with
  | nil => simp [findKey] at h
  | cons p rest ih =>
    obtain ⟨k0, v0⟩ := p
    by_cases hk : k0 = k
    · subst hk
      simp [findKey] at h
      simp [h]
    · simp [findKey, hk] at h
      exact List.mem_cons_of_mem _ (ih h)

theorem findKey_eq_none_forall {α : Type} {l : List (String × α)} {k : String}
    (h : findKey l k = none) : ∀ pv ∈ l, pv.1 ≠ k := by
  induction l with
  | nil => simp
  | cons p rest ih =>
    obtain ⟨k0, v0⟩ := p
    by_cases hk : k0 = k
    · simp [findKey, hk] at h
    · simp [findKey, hk] at h
      intro pv hpv
      rcases List.mem_cons.mp hpv with hpv1 | hpv1
      · subst hpv1
        simpa using hk
      · exact ih h pv hpv1

/-! ## C5 and C10 -/

/-- C5: extracting from the raw text "not json at all" (all four cascade
stages fail) returns the sentinel Verdict — all four required fields are
`"ERROR"` and `model_used` is the model identifier resolved for this call —
and, being a total function, never raises. -/
theorem C5_total_failure_sentinel (model selfModel : String) :
    extractVerdict "not json at all".data model selfModel =
      errorVerdict model := rfl

/-- C10: every error exit of `_call_openrouter_api` outside the parsing
cascade — missing API key, raised request, non-ok HTTP response, or the
unexpected-exception path (e.g. a response body parsing to a JSON value that
is not an object) — returns the fallback Verdict stamped with the generator's
configured `self.model`, not the per-call model argument. -/
theorem C10_fallback_uses_self_model (modelArg : Option String)
    (selfModel : String) : (∀ status,
      callOpenRouterApi (.httpNotOk status) modelArg selfModel =
        generate_fallback_response selfModel) ∧
    callOpenRouterApi .apiKeyMissing modelArg selfModel =
      generate_fallback_response selfModel ∧
    callOpenRouterApi .requestError modelArg selfModel =
      generate_fallback_response selfModel ∧
    callOpenRouterApi (.content "[1, 2]") modelArg selfModel =
      generate_fallback_response selfModel ∧
    findKey (generate_fallback_response selfModel) "model_used" =
      some (J.str selfModel) ∧
    findKey (callOpenRouterApi (.content "[1, 2]") (some "per-call-model")
        "default-model") "model_used" = some (J.str "default-model") :=
  ⟨fun _ => rfl, rfl, rfl, rfl, rfl, rfl⟩

/-! ## C1 -/

/-- Stage 1 produced a JSON object (direct parse). -/
def stage1IsObj (content : List Char) : Bool :=
  match jsonParse content with
  | some (J.obj _) => true
  | _ => false

/-- Stage 2 produced a JSON object (fenced-block parse). -/
def stage2IsObj (content : List Char) : Bool :=
  (stage2extract content).isSome

theorem all_hasKey_insertKV {α : Type} (ks : List String)
    (o : List (String × α)) (k : String) (v : α)
    (h : ks.all (hasKey o) = true) :
    ks.all (hasKey (insertKV o k v)) = true := by
  simp only [List.all_eq_true] at h ⊢
  intro x hx
  exact hasKey_insertKV_of_hasKey k v (h x hx)

theorem firstAccepted_required {l : List (List Char)} {o : List (String × J)}
    (h : firstAccepted l = some o) :
    requiredFields.all (hasKey o) = true := by
  induction l with
  | nil => simp [firstAccepted] at h
  | cons c rest ih =>
    unfold firstAccepted at h
    rcases hc : acceptCandidate c with _ | o2
    · rw [hc] at h
      exact ih h
    · rw [hc] at h
      cases h
      unfold acceptCandidate at hc
      split at hc
      · split at hc
        · cases hc
          assumption
        · exact absurd hc (by simp)
      · exact absurd hc (by simp)

/-- C1 (counterexample): the claim fails — a raw text that parses directly as
a JSON object lacking the required fields (here the empty object) is returned
as-is by stage 1 with only `model_used` overlaid, so the resulting Verdict
contains none of the four required fields. -/
theorem C1_counterexample :
    requiredFields.all
      (hasKey (extractVerdict "\x7b\x7d".data "some-model" "self-model")) =
        false ∧
    extractVerdict "\x7b\x7d".data "some-model" "self-model" =
      [("model_used", J.str "some-model")] := ⟨rfl, rfl⟩

/-- C1 (amended): whenever neither stage 1 nor stage 2 yields a JSON object,
the returned Verdict contains all four required field names — stage 3 verdicts
passed the explicit all-fields check, stage 4 verdicts are assembled from the
four matches, and the sentinel carries all four; stage 1/2 verdicts are the
parsed object plus `model_used` and may lack required fields. -/
theorem C1_fields_present_after_stage2 (content : List Char)
    (model selfModel : String) (h1 : stage1IsObj content = false)
    (h2 : stage2IsObj content = false) :
    requiredFields.all (hasKey (extractVerdict content model selfModel)) =
      true := by
  unfold extractVerdict
  split
  · next o heq => simp [stage1IsObj, heq] at h1
  · next heq hne => rfl
  · next heq =>
    split
    · next o heq2 =>
      simp only [stage2IsObj] at h2
      rw [heq2] at h2
      exact absurd h2 (by simp)
    · next heq2 =>
      split
      · next o heq3 =>
        exact all_hasKey_insertKV _ _ _ _ (firstAccepted_required heq3)
      · next heq3 =>
        split
        · next a b c d heq4 => rfl
        · next heq4 => rfl

/-- C1 (witness for the amended theorem). -/
theorem C1_witness :
    stage1IsObj "not an object at all".data = false ∧
    stage2IsObj "not an object at all".data = false ∧
    requiredFields.all
      (hasKey (extractVerdict "not an object at all".data "m" "sm")) = true :=
  ⟨rfl, rfl,
    C1_fields_present_after_stage2 "not an object at all".data "m" "sm" rfl rfl⟩

/-! ## C4 -/

/-- C4: dispatch for `"o3-pro"` always selects the response-API call shape
(`send_to_o3_pro`), for every registry whatsoever — in particular regardless
of the provider recorded for `o3-pro` — and `is_openai_model` returns true for
`"o3-pro"` unconditionally, else exactly the test `provider == "openai"` on
the registered entry. -/
theorem C4_o3_pro_routing :
    (∀ registry : List (String × ModelConfig),
      sendRouteIn registry "o3-pro" = .ok .responseApi ∧
      is_openai_modelIn registry "o3-pro" = .ok true) ∧
    (∀ model, model ≠ "o3-pro" → ∀ cfg,
      findKey MODEL_CONFIGS model = some cfg →
      is_openai_model model = .ok (decide (cfg.provider = "openai"))) := by
  refine ⟨fun registry => ⟨rfl, rfl⟩, ?_⟩
  intro model hne cfg hcfg
  unfold is_openai_model is_openai_modelIn get_model_configIn
  rw [if_neg hne, hcfg]

/-- C4 (witness): the routing theorem applied to the static registry and two
registered models. -/
theorem C4_witness :
    sendRoute "o3-pro" = .ok .responseApi ∧
    is_openai_model "gpt-4o" = .ok true ∧
    is_openai_model "openai/gpt-5" = .ok false := by
  refine ⟨(C4_o3_pro_routing.1 MODEL_CONFIGS).1, ?_, ?_⟩
  · exact C4_o3_pro_routing.2 "gpt-4o" (by decide)
      ⟨2.0, 0.0,
        ["temperature", "max_tokens", "top_p", "frequency_penalty",
         "presence_penalty"],
        "gpt-4o", "GPT-4o model with full parameter support", "openai"⟩ rfl
  · exact C4_o3_pro_routing.2 "openai/gpt-5" (by decide)
      ⟨2.0, 0.0,
        ["temperature", "max_tokens", "top_p", "frequency_penalty",
         "presence_penalty"],
        "gpt-4",
        "GPT-5 model with full parameter support via OpenRouter",
        "openrouter"⟩ rfl

/-! ## C6 -/

/-- C6: `count_tokens` is total for every text and model identifier (including
unregistered ones and encoders that always fail), degrades through the three
tiers in order — the model's tokenizer, the gpt-4 tokenizer, the
`len(text) // 4` estimate — and its result is a non-negative integer. -/
theorem C6_count_tokens_degrades (encode : String → String → Option Nat)
    (text model : String) :
    (∀ cfg n, get_model_config model = .ok cfg →
      encode cfg.tokenizer text = some n →
      count_tokens encode text model = n) ∧
    (∀ cfg n, get_model_config model = .ok cfg →
      encode cfg.tokenizer text = none → encode "gpt-4" text = some n →
      count_tokens encode text model = n) ∧
    (∀ cfg, get_model_config model = .ok cfg →
      encode cfg.tokenizer text = none → encode "gpt-4" text = none →
      count_tokens encode text model = text.length / 4) ∧
    (findKey MODEL_CONFIGS model = none → ∀ n, encode "gpt-4" text = some n →
      count_tokens encode text model = n) ∧
    (findKey MODEL_CONFIGS model = none → encode "gpt-4" text = none →
      count_tokens encode text model = text.length / 4) ∧
    0 ≤ count_tokens encode text model := by
  have herr : findKey MODEL_CONFIGS model = none →
      get_model_config model = .error (.unsupportedModel model) := by
    intro h
    unfold get_model_config get_model_configIn
    rw [h]
  refine ⟨?_, ?_, ?_, ?_, ?_, Nat.zero_le _⟩
  · intro cfg n hcfg henc
    simp [count_tokens, hcfg, henc]
  · intro cfg n hcfg henc hfb
    simp [count_tokens, hcfg, henc, hfb]
  · intro cfg hcfg henc hfb
    simp [count_tokens, hcfg, henc, hfb]
  · intro hm n hfb
    simp [count_tokens, herr hm, hfb]
  · intro hm hfb
    simp [count_tokens, herr hm, hfb]

/-- C6 (witness): with an encoder that always raises and an unregistered
model, the final length-based tier fires. -/
theorem C6_witness :
    count_tokens (fun _ _ => none) "abcdefgh" "not-a-model" = 2 :=
  (C6_count_tokens_degrades (fun _ _ => none) "abcdefgh" "not-a-model").2.2.2.2.1
    rfl rfl

/-! ## C7 -/

/-- C7: `calculate_cost` is additive in its token counts for every model and
non-negative counts, and a model without a pricing entry is charged at gpt-4
pricing with no failure path (the function is total). -/
theorem C7_cost_additive (model : String) (a b c d : ℤ) (ha : 0 ≤ a)
    (hb : 0 ≤ b) (hc : 0 ≤ c) (hd : 0 ≤ d) :
    calculate_cost (a + b) (c + d) model =
      calculate_cost a c model + calculate_cost b d model ∧
    (hasKey MODEL_PRICING model = false →
      ∀ i o : ℤ, calculate_cost i o model = calculate_cost i o "gpt-4") := by
  constructor
  · simp only [calculate_cost]
    push_cast
    ring
  · intro hmiss i o
    simp only [calculate_cost, hmiss]
    simp

/-- C7 (witness): additivity at concrete counts on a priced model, and the
gpt-4 fallback on an unpriced identifier. -/
theorem C7_witness :
    calculate_cost 3 7 "gpt-4" =
      calculate_cost 1 3 "gpt-4" + calculate_cost 2 4 "gpt-4" ∧
    calculate_cost 5 6 "unpriced-model" = calculate_cost 5 6 "gpt-4" := by
  constructor
  · exact (C7_cost_additive "gpt-4" 1 2 3 4 (by decide) (by decide) (by decide)
      (by decide)).1
  · exact (C7_cost_additive "unpriced-model" 0 0 0 0 le_rfl le_rfl le_rfl
      le_rfl).2 rfl 5 6

/-! ## C9 -/

/-- C9: every identifier absent from the registry makes `get_model_config`
raise the unsupported-model `ValueError`, and `validate_model_parameters`,
which resolves the config first, propagates it; every registered identifier
resolves to its entry without error. -/
theorem C9_unknown_model (model : String) (kwargs : List (String × ℚ)) :
    (findKey MODEL_CONFIGS model = none →
      get_model_config model = .error (.unsupportedModel model) ∧
      validate_model_parameters model kwargs =
        .error (.unsupportedModel model)) ∧
    (∀ cfg, findKey MODEL_CONFIGS model = some cfg →
      get_model_config model = .ok cfg) := by
  constructor
  · intro h
    have hg : get_model_config model = .error (.unsupportedModel model) := by
      unfold get_model_config get_model_configIn
      rw [h]
    refine ⟨hg, ?_⟩
    unfold validate_model_parameters
    rw [hg]
  · intro cfg h
    unfold get_model_config get_model_configIn
    rw [h]

/-- C9 (witness): an unregistered and a registered identifier. -/
theorem C9_witness :
    get_model_config "not-a-real-model" =
      .error (.unsupportedModel "not-a-real-model") ∧
    validate_model_parameters "not-a-real-model" [] =
      .error (.unsupportedModel "not-a-real-model") ∧
    get_model_config "o3-mini" =
      .ok ⟨1.0, 0.0,
        ["max_completion_tokens", "top_p", "frequency_penalty",
         "presence_penalty"],
        "gpt-4",
        "o3-mini model with temperature range 0-1, uses max_completion_tokens, does NOT support temperature",
        "openrouter"⟩ := by
  obtain ⟨h1, h2⟩ := (C9_unknown_model "not-a-real-model" []).1 rfl
  exact ⟨h1, h2, (C9_unknown_model "o3-mini" []).2 _ rfl⟩

/-! ## Lemmas on the kwargs loop of `validate_model_parameters` -/

theorem paramStep_findKey (sp : List String) (init : List (String × ℚ))
    (pv : String × ℚ) (k : String) (hne : pv.1 ≠ k) :
    findKey (paramStep sp init pv) k = findKey init k := by
  unfold paramStep
  split
  · rfl
  · split
    · exact findKey_insertKV_ne init pv.1 k pv.2 (Ne.symm hne)
    · rfl

theorem paramStep_not_supported (sp : List String) (init : List (String × ℚ))
    (pv : String × ℚ) (k : String) (h : sp.contains k = false) :
    findKey (paramStep sp init pv) k = findKey init k := by
  by_cases hne : pv.1 = k
  · unfold paramStep
    split
    · rfl
    · split
      · next h2 =>
        rw [hne, h] at h2
        exact absurd h2 (by decide)
      · rfl
  · exact paramStep_findKey sp init pv k hne

theorem paramStep_mt_skip (sp : List String) (init : List (String × ℚ))
    (pv : String × ℚ) (hmct : sp.contains "max_completion_tokens" = true) :
    findKey (paramStep sp init pv) "max_tokens" =
      findKey init "max_tokens" := by
  by_cases hpk : pv.1 = "max_tokens"
  · unfold paramStep
    rw [if_pos ⟨hpk, hmct⟩]
  · exact paramStep_findKey sp init pv _ hpk

theorem foldl_paramStep_preserve (sp : List String)
    (kwargs : List (String × ℚ)) (k : String)
    (h : ∀ pv ∈ kwargs, pv.1 ≠ k) :
    ∀ init, findKey (kwargs.foldl (paramStep sp) init) k = findKey init k := by
  induction kwargs with
  | nil => intro init; rfl
  | cons pv rest ih =>
    intro init
    rw [List.foldl_cons, ih (fun q hq => h q (List.mem_cons_of_mem _ hq)),
      paramStep_findKey sp init pv k (h pv (List.mem_cons_self _ _))]

theorem foldl_paramStep_not_supported (sp : List String)
    (kwargs : List (String × ℚ)) (k : String) (h : sp.contains k = false) :
    ∀ init, findKey (kwargs.foldl (paramStep sp) init) k = findKey init k := by
  induction kwargs with
  | nil => intro init; rfl
  | cons pv rest ih =>
    intro init
    rw [List.foldl_cons, ih, paramStep_not_supported sp init pv k h]

theorem foldl_paramStep_mt_skip (sp : List String)
    (kwargs : List (String × ℚ))
    (hmct : sp.contains "max_completion_tokens" = true) :
    ∀ init, findKey (kwargs.foldl (paramStep sp) init) "max_tokens" =
      findKey init "max_tokens" := by
  induction kwargs with
  | nil => intro init; rfl
  | cons pv rest ih =>
    intro init
    rw [List.foldl_cons, ih, paramStep_mt_skip sp init pv hmct]

theorem foldl_paramStep_value (sp : List String) (k : String) (v : ℚ)
    (hk : ¬(k = "max_tokens" ∧ sp.contains "max_completion_tokens" = true)) :
    ∀ kwargs : List (String × ℚ), (kwargs.map Prod.fst).Nodup →
      findKey kwargs k = some v →
      ∀ init, findKey init k = some v →
        findKey (kwargs.foldl (paramStep sp) init) k = some v := by
  intro kwargs
  induction kwargs with
  | nil =>
    intro _ hfind _ _
    simp [findKey] at hfind
  | cons pv rest ih =>
    intro hnd hfind init hinit
    obtain ⟨k1, v1⟩ := pv
    rw [List.foldl_cons]
    simp only [List.map_cons, List.nodup_cons] at hnd
    by_cases hpk : k1 = k
    · subst hpk
      have hv : v1 = v := by simpa [findKey] using hfind
      subst hv
      have hrest : ∀ q ∈ rest, q.1 ≠ k1 := by
        intro q hq hqe
        exact hnd.1 (hqe ▸ List.mem_map_of_mem Prod.fst hq)
      rw [foldl_paramStep_preserve sp rest k1 hrest]
      unfold paramStep
      split
      · next hcond => exact absurd hcond hk
      · split
        · exact findKey_insertKV_self init k1 v1
        · exact hinit
    · have hfind2 : findKey rest k = some v := by
        simpa [findKey, hpk] using hfind
      have hinit2 : findKey (paramStep sp init (k1, v1)) k = some v := by
        rw [paramStep_findKey sp init (k1, v1) k hpk]
        exact hinit
      exact ih hnd.2 hfind2 _ hinit2

/-- Successful runs of `validate_model_parameters` are the kwargs loop applied
to a base bag that contains at most a `temperature` binding and then the
`max_tokens` mapping step. -/
theorem validate_ok_shape (model : String) (cfg : ModelConfig)
    (kwargs : List (String × ℚ))
    (hm : findKey MODEL_CONFIGS model = some cfg) (r : List (String × ℚ))
    (hr : validate_model_parameters model kwargs = .ok r) :
    ∃ vp1 : List (String × ℚ),
      findKey vp1 "max_tokens" = none ∧
      findKey vp1 "max_completion_tokens" = none ∧
      r = kwargs.foldl (paramStep cfg.supported_parameters)
        (match findKey kwargs "max_tokens" with
         | some v =>
           if cfg.supported_parameters.contains "max_completion_tokens" then
             insertKV vp1 "max_completion_tokens" v
           else insertKV vp1 "max_tokens" v
         | none => vp1) := by
  have hok : get_model_config model = .ok cfg := by
    unfold get_model_config get_model_configIn
    rw [hm]
  by_cases htmp : cfg.supported_parameters.contains "temperature" = true
  · rcases ht : findKey kwargs "temperature" with _ | t
    · simp only [validate_model_parameters, hok, htmp, ht, if_true] at hr
      refine ⟨insertKV [] "temperature" cfg.default_temperature, rfl, rfl, ?_⟩
      simpa using hr.symm
    · by_cases hv : 0 ≤ t ∧ t ≤ cfg.max_temperature
      · simp only [validate_model_parameters, hok, htmp, ht, if_pos hv,
          if_true] at hr
        refine ⟨insertKV [] "temperature" t, rfl, rfl, ?_⟩
        simpa using hr.symm
      · simp only [validate_model_parameters, hok, htmp, ht, if_neg hv,
          if_true] at hr
        exact absurd hr (by simp)
  · have htf : cfg.supported_parameters.contains "temperature" = false := by
      simpa using htmp
    simp only [validate_model_parameters, hok, htf, Bool.false_eq_true,
      if_false] at hr
    refine ⟨[], rfl, rfl, ?_⟩
    simpa using hr.symm

/-! ## C2 -/

/-- C2: for a registered model supporting `temperature`, omitting the caller
temperature yields the model default, and a caller temperature `t` succeeds
exactly when `0 ≤ t ≤ max_temperature`, raising the invalid-temperature
`ValueError` otherwise; for a registered model not supporting `temperature`, a
caller-supplied temperature is silently dropped from the result. -/
theorem C2_temperature_normalization (model : String) (cfg : ModelConfig)
    (hm : findKey MODEL_CONFIGS model = some cfg)
    (kwargs : List (String × ℚ)) (hnd : (kwargs.map Prod.fst).Nodup) :
    (cfg.supported_parameters.contains "temperature" = true →
      (findKey kwargs "temperature" = none →
        ∃ r, validate_model_parameters model kwargs = .ok r ∧
          findKey r "temperature" = some cfg.default_temperature) ∧
      (∀ t, findKey kwargs "temperature" = some t →
        ((0 ≤ t ∧ t ≤ cfg.max_temperature) →
          ∃ r, validate_model_parameters model kwargs = .ok r ∧
            findKey r "temperature" = some t) ∧
        (¬(0 ≤ t ∧ t ≤ cfg.max_temperature) →
          validate_model_parameters model kwargs =
            .error (.invalidTemperature model t cfg.max_temperature)))) ∧
    (cfg.supported_parameters.contains "temperature" = false →
      ∀ t, findKey kwargs "temperature" = some t →
        ∃ r, validate_model_parameters model kwargs = .ok r ∧
          findKey r "temperature" = none) := by
  have hok : get_model_config model = .ok cfg := by
    unfold get_model_config get_model_configIn
    rw [hm]
  have hvp2 : ∀ x : ℚ,
      findKey (match findKey kwargs "max_tokens" with
        | some v =>
          if cfg.supported_parameters.contains "max_completion_tokens" then
            insertKV (insertKV [] "temperature" x) "max_completion_tokens" v
          else insertKV (insertKV [] "temperature" x) "max_tokens" v
        | none => insertKV [] "temperature" x) "temperature" = some x := by
    intro x
    rcases hmt : findKey kwargs "max_tokens" with _ | v
    · exact findKey_insertKV_self [] "temperature" x
    · by_cases hmc :
        cfg.supported_parameters.contains "max_completion_tokens" = true
      · simp only [hmc, if_true]
        rw [findKey_insertKV_ne _ _ _ _ (by decide : "temperature" ≠ "max_completion_tokens")]
        exact findKey_insertKV_self [] "temperature" x
      · simp only [if_neg hmc]
        rw [findKey_insertKV_ne _ _ _ _ (by decide : "temperature" ≠ "max_tokens")]
        exact findKey_insertKV_self [] "temperature" x
  constructor
  · intro htmp
    constructor
    · intro hnone
      have hshape : validate_model_parameters model kwargs =
          .ok (kwargs.foldl (paramStep cfg.supported_parameters)
            (match findKey kwargs "max_tokens" with
             | some v =>
               if cfg.supported_parameters.contains "max_completion_tokens" then
                 insertKV (insertKV [] "temperature" cfg.default_temperature)
                   "max_completion_tokens" v
               else insertKV (insertKV [] "temperature" cfg.default_temperature)
                 "max_tokens" v
             | none => insertKV [] "temperature" cfg.default_temperature)) := by
        simp only [validate_model_parameters, hok, htmp, hnone, if_true]
      refine ⟨_, hshape, ?_⟩
      rw [foldl_paramStep_preserve _ _ _ (findKey_eq_none_forall hnone)]
      exact hvp2 cfg.default_temperature
    · intro t ht
      constructor
      · intro hvalid
        have hshape : validate_model_parameters model kwargs =
            .ok (kwargs.foldl (paramStep cfg.supported_parameters)
              (match findKey kwargs "max_tokens" with
               | some v =>
                 if cfg.supported_parameters.contains "max_completion_tokens" then
                   insertKV (insertKV [] "temperature" t)
                     "max_completion_tokens" v
                 else insertKV (insertKV [] "temperature" t) "max_tokens" v
               | none => insertKV [] "temperature" t)) := by
          simp only [validate_model_parameters, hok, htmp, ht, if_pos hvalid,
            if_true]
        refine ⟨_, hshape, ?_⟩
        exact foldl_paramStep_value cfg.supported_parameters "temperature" t
          (by intro hcon; exact absurd hcon.1 (by decide)) kwargs hnd ht _
          (hvp2 t)
      · intro hinvalid
        simp only [validate_model_parameters, hok, htmp, ht, if_neg hinvalid,
          if_true]
  · intro htf t ht
    have hshape : validate_model_parameters model kwargs =
        .ok (kwargs.foldl (paramStep cfg.supported_parameters)
          (match findKey kwargs "max_tokens" with
           | some v =>
             if cfg.supported_parameters.contains "max_completion_tokens" then
               insertKV [] "max_completion_tokens" v
             else insertKV [] "max_tokens" v
           | none => [])) := by
      simp only [validate_model_parameters, hok, htf, Bool.false_eq_true,
        if_false]
    refine ⟨_, hshape, ?_⟩
    rw [foldl_paramStep_not_supported _ _ _ htf]
    rcases hmt : findKey kwargs "max_tokens" with _ | v
    · rfl
    · by_cases hmc :
        cfg.supported_parameters.contains "max_completion_tokens" = true
      · simp only [hmc, if_true]
        rfl
      · simp only [if_neg hmc]
        rfl

/-- C2 (witness): gpt-4 supports temperature (default 0, max 2); o3 does not
and silently drops a caller temperature. -/
theorem C2_witness :
    (∃ r, validate_model_parameters "gpt-4" [("temperature", 1)] = .ok r ∧
      findKey r "temperature" = some 1) ∧
    validate_model_parameters "gpt-4" [("temperature", 3)] =
      .error (.invalidTemperature "gpt-4" 3 2.0) ∧
    (∃ r, validate_model_parameters "o3" [("temperature", 1)] = .ok r ∧
      findKey r "temperature" = none) := by
  have hgpt4 := C2_temperature_normalization "gpt-4"
    ⟨2.0, 0.0,
      ["temperature", "max_tokens", "top_p", "frequency_penalty",
       "presence_penalty"],
      "gpt-4", "GPT-4 model with full parameter support", "openai"⟩
    rfl [("temperature", 1)] (by simp)
  have hgpt4bad := C2_temperature_normalization "gpt-4"
    ⟨2.0, 0.0,
      ["temperature", "max_tokens", "top_p", "frequency_penalty",
       "presence_penalty"],
      "gpt-4", "GPT-4 model with full parameter support", "openai"⟩
    rfl [("temperature", 3)] (by simp)
  have ho3 := C2_temperature_normalization "o3"
    ⟨1.0, 0.0,
      ["max_completion_tokens", "top_p", "frequency_penalty",
       "presence_penalty"],
      "gpt-4",
      "o3 model with temperature range 0-1, uses max_completion_tokens, does NOT support temperature",
      "openrouter"⟩
    rfl [("temperature", 1)] (by simp)
  refine ⟨((hgpt4.1 rfl).2 1 rfl).1 (by norm_num), ?_, (ho3.2 rfl) 1 rfl⟩
  exact ((hgpt4bad.1 rfl).2 3 rfl).2 (by norm_num)

/-! ## C3 -/

/-- C3: for every registered model and caller bag, the result never contains
both token-limit names; a caller `max_tokens` is renamed to
`max_completion_tokens` when the model lists that name, and kept as
`max_tokens` otherwise — every registered model lists one of the two names, so
the drop-with-warning case of the claim is vacuous over this registry. -/
theorem C3_token_key_exclusive (model : String) (cfg : ModelConfig)
    (kwargs : List (String × ℚ))
    (hm : findKey MODEL_CONFIGS model = some cfg) :
    (∀ r, validate_model_parameters model kwargs = .ok r →
      ¬(hasKey r "max_tokens" = true ∧
        hasKey r "max_completion_tokens" = true)) ∧
    (∀ v, findKey kwargs "max_tokens" = some v →
      cfg.supported_parameters.contains "max_completion_tokens" = true →
      findKey kwargs "max_completion_tokens" = none →
      ∀ r, validate_model_parameters model kwargs = .ok r →
        findKey r "max_completion_tokens" = some v ∧
        hasKey r "max_tokens" = false) ∧
    (∀ v, findKey kwargs "max_tokens" = some v →
      cfg.supported_parameters.contains "max_completion_tokens" = false →
      (kwargs.map Prod.fst).Nodup →
      ∀ r, validate_model_parameters model kwargs = .ok r →
        findKey r "max_tokens" = some v) ∧
    (∀ name cfg2, findKey MODEL_CONFIGS name = some cfg2 →
      cfg2.supported_parameters.contains "max_completion_tokens" = true ∨
      cfg2.supported_parameters.contains "max_tokens" = true) := by
  have hmtNone : ∀ r, validate_model_parameters model kwargs = .ok r →
      cfg.supported_parameters.contains "max_completion_tokens" = true →
      findKey r "max_tokens" = none := by
    intro r hr hmc
    obtain ⟨vp1, hvp1mt, _, hshape⟩ := validate_ok_shape model cfg kwargs hm r hr
    subst hshape
    rw [foldl_paramStep_mt_skip _ _ hmc]
    rcases hmt : findKey kwargs "max_tokens" with _ | v
    · exact hvp1mt
    · simp only [hmc, if_true]
      rw [findKey_insertKV_ne _ _ _ _ (by decide : "max_tokens" ≠ "max_completion_tokens")]
      exact hvp1mt
  have hmctNone : ∀ r, validate_model_parameters model kwargs = .ok r →
      cfg.supported_parameters.contains "max_completion_tokens" = false →
      findKey r "max_completion_tokens" = none := by
    intro r hr hmc
    obtain ⟨vp1, _, hvp1mct, hshape⟩ := validate_ok_shape model cfg kwargs hm r hr
    subst hshape
    rw [foldl_paramStep_not_supported _ _ _ hmc]
    rcases hmt : findKey kwargs "max_tokens" with _ | v
    · exact hvp1mct
    · simp only [if_neg (by rw [hmc]; decide :
        ¬cfg.supported_parameters.contains "max_completion_tokens" = true)]
      rw [findKey_insertKV_ne _ _ _ _ (by decide : "max_completion_tokens" ≠ "max_tokens")]
      exact hvp1mct
  refine ⟨?_, ?_, ?_, ?_⟩
  · intro r hr ⟨hmt, hmct⟩
    by_cases hmc :
        cfg.supported_parameters.contains "max_completion_tokens" = true
    · have := hmtNone r hr hmc
      simp [hasKey, this] at hmt
    · have := hmctNone r hr (by simpa using hmc)
      simp [hasKey, this] at hmct
  · intro v hv hmc hnomct r hr
    obtain ⟨vp1, hvp1mt, _, hshape⟩ := validate_ok_shape model cfg kwargs hm r hr
    constructor
    · rw [hshape,
        foldl_paramStep_preserve _ _ _ (findKey_eq_none_forall hnomct), hv]
      simp only [hmc, if_true]
      exact findKey_insertKV_self _ _ _
    · simp [hasKey, hmtNone r hr hmc]
  · intro v hv hmc hnd r hr
    obtain ⟨vp1, hvp1mt, _, hshape⟩ := validate_ok_shape model cfg kwargs hm r hr
    rw [hshape]
    refine foldl_paramStep_value cfg.supported_parameters "max_tokens" v
      (by intro hcon; rw [hcon.2] at hmc; exact absurd hmc (by simp)) kwargs
      hnd hv _ ?_
    rw [hv]
    simp only [if_neg (by rw [hmc]; decide :
      ¬cfg.supported_parameters.contains "max_completion_tokens" = true)]
    exact findKey_insertKV_self _ _ _
  · have hall : MODEL_CONFIGS.all (fun e =>
        e.2.supported_parameters.contains "max_completion_tokens" ||
        e.2.supported_parameters.contains "max_tokens") = true := rfl
    intro name cfg2 hfind
    have := List.all_eq_true.mp hall _ (findKey_eq_some_mem hfind)
    simpa using this

/-- C3 (witness): on `o3` a caller `max_tokens` is renamed; on `gpt-4` it is
kept; neither result carries both names. -/
theorem C3_witness :
    (∀ r, validate_model_parameters "o3" [("max_tokens", 100)] = .ok r →
      ¬(hasKey r "max_tokens" = true ∧
        hasKey r "max_completion_tokens" = true)) ∧
    (∀ r, validate_model_parameters "o3" [("max_tokens", 100)] = .ok r →
      findKey r "max_completion_tokens" = some 100 ∧
      hasKey r "max_tokens" = false) ∧
    (∀ r, validate_model_parameters "gpt-4" [("max_tokens", 100)] = .ok r →
      findKey r "max_tokens" = some 100) := by
  have ho3 := C3_token_key_exclusive "o3"
    ⟨1.0, 0.0,
      ["max_completion_tokens", "top_p", "frequency_penalty",
       "presence_penalty"],
      "gpt-4",
      "o3 model with temperature range 0-1, uses max_completion_tokens, does NOT support temperature",
      "openrouter"⟩
    [("max_tokens", 100)] rfl
  have hgpt4 := C3_token_key_exclusive "gpt-4"
    ⟨2.0, 0.0,
      ["temperature", "max_tokens", "top_p", "frequency_penalty",
       "presence_penalty"],
      "gpt-4", "GPT-4 model with full parameter support", "openai"⟩
    [("max_tokens", 100)] rfl
  exact ⟨ho3.1, fun r hr => ho3.2.1 100 rfl rfl rfl r hr,
    fun r hr => hgpt4.2.2.1 100 rfl rfl (by simp) r hr⟩

/-! ## C8: infrastructure

The round-trip claim quantifies over Verdict-shaped objects.  Field values
range over non-empty strings of ordinary characters — no quote, backslash,
brace or backtick and nothing below 0x20 — i.e. values that the wrappings of
the claim (fenced block, brace-delimited span, standalone quoted lines) can
carry at all. -/

/-- Ordinary field-value characters. -/
def GoodVal (v : List Char) : Prop :=
  v ≠ [] ∧ ∀ c ∈ v, c ≠ '"' ∧ c ≠ '\\' ∧ c ≠ lbrace ∧ c ≠ rbrace ∧
    c ≠ btick ∧ 0x20 ≤ c.toNat

instance (v : List Char) : Decidable (GoodVal v) := by
  unfold GoodVal
  infer_instance

theorem asString_data (s : String) : List.asString s.data = s := rfl

theorem dropLit_self (p t : List Char) : dropLit p (p ++ t) = some t := by
  induction p with
  | nil => simp [dropLit]
  | cons c cs ih => simp [dropLit, ih]

theorem dropLit_none_of_head_ne (p ps : Char) (l cs : List Char)
    (h : ps ≠ p) : dropLit (p :: l) (ps :: cs) = none := by
  simp [dropLit, h]

/-- The JSON string lexer consumes exactly a clean value up to its closing
quote. -/
theorem pString_clean (v rest : List Char)
    (h : ∀ c ∈ v, c ≠ '"' ∧ c ≠ '\\' ∧ 0x20 ≤ c.toNat) :
    pString (v ++ '"' :: rest) = some (v, rest) := by
  induction v with
  | nil =>
    rw [List.nil_append, pString.eq_def]
    simp
  | cons c cs ih =>
    obtain ⟨h1, h2, h3⟩ := h c (List.mem_cons_self _ _)
    have hrest : ∀ c ∈ cs, c ≠ '"' ∧ c ≠ '\\' ∧ 0x20 ≤ c.toNat :=
      fun x hx => h x (List.mem_cons_of_mem _ hx)
    have h4 : ¬c.toNat < 0x20 := by omega
    rw [List.cons_append, pString.eq_def]
    simp [h1, h2, h4, ih hrest]

/-- The greedy `[^"]+` run stops exactly at the closing quote of a clean
value. -/
theorem quoteRun_clean (v rest : List Char) (h : ∀ c ∈ v, c ≠ '"') :
    quoteRun (v ++ '"' :: rest) = (v, '"' :: rest) := by
  induction v with
  | nil => simp [quoteRun]
  | cons c cs ih =>
    have h1 : c ≠ '"' := h c (List.mem_cons_self _ _)
    simp [quoteRun, h1, ih (fun x hx => h x (List.mem_cons_of_mem _ hx))]

/-- The greedy brace-free run stops exactly at the closing brace. -/
theorem nonBraceRun_clean (u rest : List Char)
    (h : ∀ c ∈ u, c ≠ lbrace ∧ c ≠ rbrace) :
    nonBraceRun (u ++ rbrace :: rest) = (u, rbrace :: rest) := by
  induction u with
  | nil => simp [nonBraceRun]
  | cons c cs ih =>
    obtain ⟨h1, h2⟩ := h c (List.mem_cons_self _ _)
    simp [nonBraceRun, h1, h2,
      ih (fun x hx => h x (List.mem_cons_of_mem _ hx))]

theorem jws_cons_of_not (c : Char) (cs : List Char) (h : isJws c = false) :
    jws (c :: cs) = c :: cs := by
  simp [jws, h]

theorem rws_cons_of_not (c : Char) (cs : List Char) (h : isRws c = false) :
    rws (c :: cs) = c :: cs := by
  simp [rws, h]

/-- The literal anchor occurs in text that starts with it. -/
theorem containsLit_here (p t : List Char) (hp : p ≠ []) :
    containsLit p (p ++ t) = true := by
  cases p with
  | nil => exact absurd rfl hp
  | cons c cs =>
    simp only [List.cons_append, containsLit, List.append_eq]
    rw [← List.cons_append, dropLit_self]
    simp

/-- The lazy stage-2 group passes over characters that cannot close it. -/
theorem lazyBody_append (u t : List Char) (h : ∀ c ∈ u, c ≠ rbrace) :
    lazyBody (u ++ t) = (lazyBody t).map (u ++ ·) := by
  induction u with
  | nil => simp
  | cons c cs ih =>
    have h1 : c ≠ rbrace := h c (List.mem_cons_self _ _)
    simp only [List.cons_append, lazyBody, List.append_eq]
    rw [if_neg (by simp [h1]), ih (fun x hx => h x (List.mem_cons_of_mem _ hx))]
    cases lazyBody t <;> simp

/-- One serialized member `"k": "v"` followed by continuation text. -/
def lineKV (k : String) (v rest : List Char) : List Char :=
  '"' :: (k.data ++ ('"' :: ':' :: ' ' :: '"' :: (v ++ ('"' :: rest))))

/-- `json.dumps` of a Verdict-shaped object with the four required fields:
`\x7b"False Positive": "v1", "Sanitization Found?": "v2", "Attack Feasible?":
"v3", "Confidence": "v4"\x7d`. -/
def serializeVerdictL (v1 v2 v3 v4 : List Char) : List Char :=
  lbrace :: lineKV "False Positive" v1 (',' :: ' ' ::
    lineKV "Sanitization Found?" v2 (',' :: ' ' ::
      lineKV "Attack Feasible?" v3 (',' :: ' ' ::
        lineKV "Confidence" v4 [rbrace])))

/-- The parsed object of a serialized Verdict, and the extraction result the
round trips must produce. -/
def verdictFields (v1 v2 v3 v4 : List Char) : List (String × J) :=
  [("False Positive", J.str (List.asString v1)),
   ("Sanitization Found?", J.str (List.asString v2)),
   ("Attack Feasible?", J.str (List.asString v3)),
   ("Confidence", J.str (List.asString v4))]

def verdictObjL (v1 v2 v3 v4 : List Char) (model : String) :
    List (String × J) :=
  verdictFields v1 v2 v3 v4 ++ [("model_used", J.str model)]

theorem goodVal_chars {v : List Char} (h : GoodVal v) :
    ∀ c ∈ v, c ≠ '"' ∧ c ≠ '\\' ∧ 0x20 ≤ c.toNat :=
  fun c hc => ⟨(h.2 c hc).1, (h.2 c hc).2.1, (h.2 c hc).2.2.2.2.2⟩

theorem jws_space (x : List Char) : jws (' ' :: x) = jws x := by
  simp [jws, isJws]

theorem jws_lineKV (k : String) (v rest : List Char) :
    jws (lineKV k v rest) = lineKV k v rest := by
  unfold lineKV
  exact jws_cons_of_not _ _ rfl

/-- A quoted string value inside an object parses to its `J.str`. -/
theorem pValue_quoted (f : Nat) (v rest : List Char)
    (hv : ∀ c ∈ v, c ≠ '"' ∧ c ≠ '\\' ∧ 0x20 ≤ c.toNat) :
    pValue f.succ (' ' :: '"' :: (v ++ ('"' :: rest))) =
      some (J.str (List.asString v), rest) :=
  calc pValue f.succ (' ' :: '"' :: (v ++ ('"' :: rest)))
      = (pString (v ++ ('"' :: rest))).map
          (fun sr => (J.str (List.asString sr.1), sr.2)) := rfl
    _ = some (J.str (List.asString v), rest) := by
        rw [pString_clean v rest hv]
        rfl

/-- A member followed by a comma: parse it, insert it, continue with the next
key. -/
theorem pMembers_comma (f : Nat) (k : String) (v rest : List Char)
    (acc : List (String × J))
    (hk : ∀ c ∈ k.data, c ≠ '"' ∧ c ≠ '\\' ∧ 0x20 ≤ c.toNat)
    (hv : ∀ c ∈ v, c ≠ '"' ∧ c ≠ '\\' ∧ 0x20 ≤ c.toNat) :
    pMembers f.succ.succ (lineKV k v (',' :: ' ' :: rest)) acc =
      pMembers f.succ (jws rest) (insertKV acc k (J.str (List.asString v))) := by
  rw [pMembers.eq_def]
  simp only [lineKV]
  rw [pString_clean _ _ hk]
  simp only [if_true]
  rw [jws_cons_of_not ':' _ rfl]
  simp only []
  rw [pValue_quoted f v _ hv]
  simp only []
  rw [jws_cons_of_not ',' _ rfl]
  simp only []
  rw [jws_space, asString_data]

/-- The final member followed by the closing brace: parse it, insert it,
return the object. -/
theorem pMembers_close (f : Nat) (k : String) (v rest : List Char)
    (acc : List (String × J))
    (hk : ∀ c ∈ k.data, c ≠ '"' ∧ c ≠ '\\' ∧ 0x20 ≤ c.toNat)
    (hv : ∀ c ∈ v, c ≠ '"' ∧ c ≠ '\\' ∧ 0x20 ≤ c.toNat) :
    pMembers f.succ.succ (lineKV k v (rbrace :: rest)) acc =
      some (J.obj (insertKV acc k (J.str (List.asString v))), rest) := by
  rw [pMembers.eq_def]
  simp only [lineKV]
  rw [pString_clean _ _ hk]
  simp only [if_true]
  rw [jws_cons_of_not ':' _ rfl]
  simp only []
  rw [pValue_quoted f v _ hv]
  simp only []
  rw [jws_cons_of_not rbrace _ rfl]
  rw [asString_data]
  rfl

/-- The full serialized Verdict parses to its four-field object with nothing
left over. -/
theorem pValue_serialize (f : Nat) (v1 v2 v3 v4 : List Char)
    (h1 : GoodVal v1) (h2 : GoodVal v2) (h3 : GoodVal v3) (h4 : GoodVal v4) :
    pValue f.succ.succ.succ.succ.succ.succ (serializeVerdictL v1 v2 v3 v4) =
      some (J.obj (verdictFields v1 v2 v3 v4), []) := by
  have hFP : ∀ c ∈ "False Positive".data,
      c ≠ '"' ∧ c ≠ '\\' ∧ 0x20 ≤ c.toNat := by decide
  have hSF : ∀ c ∈ "Sanitization Found?".data,
      c ≠ '"' ∧ c ≠ '\\' ∧ 0x20 ≤ c.toNat := by decide
  have hAF : ∀ c ∈ "Attack Feasible?".data,
      c ≠ '"' ∧ c ≠ '\\' ∧ 0x20 ≤ c.toNat := by decide
  have hC : ∀ c ∈ "Confidence".data,
      c ≠ '"' ∧ c ≠ '\\' ∧ 0x20 ≤ c.toNat := by decide
  calc pValue f.succ.succ.succ.succ.succ.succ (serializeVerdictL v1 v2 v3 v4)
      = pMembers f.succ.succ.succ.succ.succ
          (lineKV "False Positive" v1 (',' :: ' ' ::
            lineKV "Sanitization Found?" v2 (',' :: ' ' ::
              lineKV "Attack Feasible?" v3 (',' :: ' ' ::
                lineKV "Confidence" v4 [rbrace])))) [] := rfl
    _ = some (J.obj (verdictFields v1 v2 v3 v4), []) := by
        rw [pMembers_comma _ _ _ _ _ hFP (goodVal_chars h1), jws_lineKV,
          pMembers_comma _ _ _ _ _ hSF (goodVal_chars h2), jws_lineKV,
          pMembers_comma _ _ _ _ _ hAF (goodVal_chars h3), jws_lineKV,
          pMembers_close _ _ _ _ _ hC (goodVal_chars h4)]
        rfl

/-- `json.loads` of a serialized Verdict is its four-field object. -/
theorem jsonParse_serialize (v1 v2 v3 v4 : List Char)
    (h1 : GoodVal v1) (h2 : GoodVal v2) (h3 : GoodVal v3) (h4 : GoodVal v4) :
    jsonParse (serializeVerdictL v1 v2 v3 v4) =
      some (J.obj (verdictFields v1 v2 v3 v4)) := by
  unfold jsonParse
  rw [show (serializeVerdictL v1 v2 v3 v4).length + 8 =
    ((serializeVerdictL v1 v2 v3 v4).length +
      2).succ.succ.succ.succ.succ.succ from rfl]
  rw [pValue_serialize _ _ _ _ _ h1 h2 h3 h4]
  rfl

/-- Stage-1 round trip: the cascade on a cleanly serialized Verdict returns
the original fields with `model_used` overlaid. -/
theorem extract_serialized (v1 v2 v3 v4 : List Char) (model selfModel : String)
    (h1 : GoodVal v1) (h2 : GoodVal v2) (h3 : GoodVal v3) (h4 : GoodVal v4) :
    extractVerdict (serializeVerdictL v1 v2 v3 v4) model selfModel =
      verdictObjL v1 v2 v3 v4 model := by
  unfold extractVerdict
  rw [jsonParse_serialize _ _ _ _ h1 h2 h3 h4]
  rfl

/-- A text starting with an ordinary prose character is not JSON. -/
theorem jsonParse_plain_head (c : Char) (rest : List Char)
    (hws : isJws c = false) (h1 : c ≠ '"') (h2 : c ≠ lbrace) (h3 : c ≠ '[')
    (h4 : c ≠ 't') (h5 : c ≠ 'f') (h6 : c ≠ 'n') (h7 : c ≠ 'N') (h8 : c ≠ 'I')
    (h9 : c ≠ '-') (h10 : isDigit c = false) :
    jsonParse (c :: rest) = none := by
  unfold jsonParse
  rw [show (c :: rest).length + 8 = ((c :: rest).length + 7).succ from rfl,
    pValue.eq_def]
  simp only [jws_cons_of_not c rest hws]
  simp only [if_neg h1, if_neg h2, if_neg h3, if_neg h4, if_neg h5, if_neg h6,
    if_neg h7, if_neg h8, if_neg h9]
  rw [pNumBody.eq_def]
  simp [h10]

/-- The stage-2 scan advances over a non-backtick character. -/
theorem stage2search_cons_ne (c : Char) (rest : List Char) (h : c ≠ btick) :
    stage2search (c :: rest) = stage2search rest := by
  rw [stage2search.eq_def]
  simp only []
  rw [dropLit_none_of_head_ne btick c [btick, btick] rest h]
  rfl

theorem stage2search_append (u t : List Char) (h : ∀ c ∈ u, c ≠ btick) :
    stage2search (u ++ t) = stage2search t := by
  induction u with
  | nil => rfl
  | cons c cs ih =>
    rw [List.cons_append, stage2search_cons_ne c _ (h c (List.mem_cons_self _ _)),
      ih (fun x hx => h x (List.mem_cons_of_mem _ hx))]

theorem stage2search_none (l : List Char) (h : ∀ c ∈ l, c ≠ btick) :
    stage2search l = none := by
  induction l with
  | nil => rfl
  | cons c cs ih =>
    rw [stage2search_cons_ne c _ (h c (List.mem_cons_self _ _)),
      ih (fun x hx => h x (List.mem_cons_of_mem _ hx))]

/-- The brace-free, backtick-free body of a serialized Verdict (everything
strictly between the outer braces). -/
def serializeBody (v1 v2 v3 v4 : List Char) : List Char :=
  lineKV "False Positive" v1 (',' :: ' ' ::
    lineKV "Sanitization Found?" v2 (',' :: ' ' ::
      lineKV "Attack Feasible?" v3 (',' :: ' ' ::
        lineKV "Confidence" v4 [])))

theorem serialize_split (v1 v2 v3 v4 t : List Char) :
    serializeVerdictL v1 v2 v3 v4 ++ t =
      lbrace :: (serializeBody v1 v2 v3 v4 ++ (rbrace :: t)) := by
  simp [serializeVerdictL, serializeBody, lineKV]

theorem goodVal_all {v : List Char} (h : GoodVal v) (p : Char → Bool)
    (himp : ∀ c, c ≠ '"' → c ≠ '\\' → c ≠ lbrace → c ≠ rbrace → c ≠ btick →
      0x20 ≤ c.toNat → p c = true) : v.all p = true := by
  rw [List.all_eq_true]
  intro c hc
  obtain ⟨ha, hb, hc', hd, he, hf⟩ := h.2 c hc
  exact himp c ha hb hc' hd he hf

/-- Character-wise property of the serialized body, from the four value
hypotheses and the concrete skeleton. -/
theorem serializeBody_all (v1 v2 v3 v4 : List Char) (p : Char → Bool)
    (hq : p '"' = true) (hcm : p ',' = true) (hsp : p ' ' = true)
    (hco : p ':' = true)
    (hFP : ("False Positive".data).all p = true)
    (hSF : ("Sanitization Found?".data).all p = true)
    (hAF : ("Attack Feasible?".data).all p = true)
    (hC : ("Confidence".data).all p = true)
    (hv1 : v1.all p = true) (hv2 : v2.all p = true)
    (hv3 : v3.all p = true) (hv4 : v4.all p = true) :
    (serializeBody v1 v2 v3 v4).all p = true := by
  simp only [serializeBody, lineKV, List.all_append, List.all_cons,
    Bool.and_eq_true]
  simp_all

/-- The serialized body contains no brace and no backtick. -/
theorem serializeBody_clean (v1 v2 v3 v4 : List Char)
    (h1 : GoodVal v1) (h2 : GoodVal v2) (h3 : GoodVal v3) (h4 : GoodVal v4) :
    ∀ c ∈ serializeBody v1 v2 v3 v4,
      c ≠ lbrace ∧ c ≠ rbrace ∧ c ≠ btick := by
  have hall := serializeBody_all v1 v2 v3 v4
    (fun c => decide (c ≠ lbrace) && decide (c ≠ rbrace) && decide (c ≠ btick))
    (by decide) (by decide) (by decide) (by decide) (by decide) (by decide)
    (by decide) (by decide)
    (goodVal_all h1 _ (fun c _ _ hc hd he _ => by simp [hc, hd, he]))
    (goodVal_all h2 _ (fun c _ _ hc hd he _ => by simp [hc, hd, he]))
    (goodVal_all h3 _ (fun c _ _ hc hd he _ => by simp [hc, hd, he]))
    (goodVal_all h4 _ (fun c _ _ hc hd he _ => by simp [hc, hd, he]))
  intro c hc
  have := List.all_eq_true.mp hall c hc
  simpa [and_assoc] using this

theorem serialize_eq_braces (v1 v2 v3 v4 : List Char) :
    serializeVerdictL v1 v2 v3 v4 =
      lbrace :: (serializeBody v1 v2 v3 v4 ++ [rbrace]) := by
  simp [serializeVerdictL, serializeBody, lineKV]

theorem rws_ws (c : Char) (x : List Char) (h : isRws c = true) :
    rws (c :: x) = rws x := by
  simp [rws, h]

/-- Stage-2 wrapping of the claim: prose, a `json`-tagged fenced block holding
the serialized verdict, prose. -/
def fenceWrapL (j : List Char) : List Char :=
  "Here is the verdict:\n".data ++
    (btick :: btick :: btick :: 'j' :: 's' :: 'o' :: 'n' :: '\n' ::
      (j ++ ('\n' :: btick :: btick :: btick :: "\nDone.".data)))

theorem fenceBodyAt_serialize (v1 v2 v3 v4 : List Char)
    (h1 : GoodVal v1) (h2 : GoodVal v2) (h3 : GoodVal v3) (h4 : GoodVal v4) :
    fenceBodyAt ('j' :: 's' :: 'o' :: 'n' :: '\n' ::
        (serializeVerdictL v1 v2 v3 v4 ++
          ('\n' :: btick :: btick :: btick :: "\nDone.".data))) =
      some (serializeVerdictL v1 v2 v3 v4) := by
  have hbody : ∀ c ∈ serializeBody v1 v2 v3 v4, c ≠ rbrace :=
    fun c hc => (serializeBody_clean v1 v2 v3 v4 h1 h2 h3 h4 c hc).2.1
  simp only [fenceBodyAt]
  rw [show dropLit ['j', 's', 'o', 'n']
      ('j' :: 's' :: 'o' :: 'n' :: '\n' ::
        (serializeVerdictL v1 v2 v3 v4 ++
          ('\n' :: btick :: btick :: btick :: "\nDone.".data))) =
    some ('\n' :: (serializeVerdictL v1 v2 v3 v4 ++
      ('\n' :: btick :: btick :: btick :: "\nDone.".data))) from by
    simp [dropLit]]
  simp only []
  rw [rws_ws '\n' _ rfl, serialize_split,
    rws_cons_of_not lbrace _ rfl]
  simp only [if_pos rfl]
  rw [lazyBody_append _ _ hbody,
    show lazyBody (rbrace :: '\n' :: btick :: btick :: btick ::
      "\nDone.".data) = some [] from rfl]
  simp only [Option.map_some', List.append_nil, if_true, List.cons_append]
  rw [serialize_eq_braces]

theorem stage2search_fenceWrap (v1 v2 v3 v4 : List Char)
    (h1 : GoodVal v1) (h2 : GoodVal v2) (h3 : GoodVal v3) (h4 : GoodVal v4) :
    stage2search (fenceWrapL (serializeVerdictL v1 v2 v3 v4)) =
      some (serializeVerdictL v1 v2 v3 v4) := by
  unfold fenceWrapL
  rw [stage2search_append _ _ (by decide)]
  rw [stage2search.eq_def]
  simp only []
  rw [show dropLit [btick, btick, btick]
      (btick :: btick :: btick :: 'j' :: 's' :: 'o' :: 'n' :: '\n' ::
        (serializeVerdictL v1 v2 v3 v4 ++
          ('\n' :: btick :: btick :: btick :: "\nDone.".data))) =
    some ('j' :: 's' :: 'o' :: 'n' :: '\n' ::
      (serializeVerdictL v1 v2 v3 v4 ++
        ('\n' :: btick :: btick :: btick :: "\nDone.".data))) from by
    simp [dropLit]]
  simp only [Option.some_bind]
  rw [fenceBodyAt_serialize v1 v2 v3 v4 h1 h2 h3 h4]

/-- Stage-2 round trip: prose plus fenced block still yields the verdict. -/
theorem extract_fenceWrap (v1 v2 v3 v4 : List Char) (model selfModel : String)
    (h1 : GoodVal v1) (h2 : GoodVal v2) (h3 : GoodVal v3) (h4 : GoodVal v4) :
    extractVerdict (fenceWrapL (serializeVerdictL v1 v2 v3 v4)) model
      selfModel = verdictObjL v1 v2 v3 v4 model := by
  have hj : jsonParse (fenceWrapL (serializeVerdictL v1 v2 v3 v4)) = none := by
    rw [show fenceWrapL (serializeVerdictL v1 v2 v3 v4) =
      'H' :: ("ere is the verdict:\n".data ++
        (btick :: btick :: btick :: 'j' :: 's' :: 'o' :: 'n' :: '\n' ::
          (serializeVerdictL v1 v2 v3 v4 ++
            ('\n' :: btick :: btick :: btick :: "\nDone.".data)))) from rfl]
    exact jsonParse_plain_head 'H' _ rfl (by decide) (by decide) (by decide)
      (by decide) (by decide) (by decide) (by decide) (by decide) (by decide)
      rfl
  unfold extractVerdict
  rw [hj]
  simp only [stage2extract]
  rw [stage2search_fenceWrap v1 v2 v3 v4 h1 h2 h3 h4]
  simp only []
  rw [jsonParse_serialize _ _ _ _ h1 h2 h3 h4]
  rfl

/-- Fuel does not matter for the stage-3 scan once it exceeds the input
length. -/
theorem stage3go_congr : ∀ f g cs, cs.length < f → cs.length < g →
    stage3go f cs = stage3go g cs := by
  intro f
  induction f with
  | zero =>
    intro g cs hf _
    exact absurd hf (Nat.not_lt_zero _)
  | succ f ih =>
    intro g cs hf hg
    cases g with
    | zero => exact absurd hg (Nat.not_lt_zero _)
    | succ g =>
      cases cs with
      | nil => rfl
      | cons c rest =>
        have hlen : rest.length < f := by
          simp only [List.length_cons] at hf
          omega
        have hleng : rest.length < g := by
          simp only [List.length_cons] at hg
          omega
        rw [stage3go.eq_def, stage3go.eq_def]
        simp only []
        by_cases hc : c = lbrace
        · rw [if_pos hc, if_pos hc]
          rcases hnb : nonBraceRun rest with ⟨u, r⟩
          cases r with
          | nil => exact ih g rest hlen hleng
          | cons c2 r2 =>
            simp only []
            by_cases hcond : c2 = rbrace ∧ containsLit anchorL u = true
            · rw [if_pos hcond, if_pos hcond]
              have hr2 : r2.length < rest.length := by
                have := nonBraceRun_snd_length rest
                rw [hnb] at this
                simp only [List.length_cons] at this
                omega
              rw [ih g r2 (by omega) (by omega)]
            · rw [if_neg hcond, if_neg hcond]
              exact ih g rest hlen hleng
        · rw [if_neg hc, if_neg hc]
          exact ih g rest hlen hleng

theorem stage3findall_cons (c : Char) (rest : List Char) (hc : c ≠ lbrace) :
    stage3findall (c :: rest) = stage3findall rest := by
  unfold stage3findall
  rw [show (c :: rest).length + 1 = (rest.length + 1) + 1 from by simp,
    stage3go.eq_def]
  simp only []
  rw [if_neg hc]

theorem stage3findall_skip (u t : List Char) (hu : ∀ c ∈ u, c ≠ lbrace) :
    stage3findall (u ++ t) = stage3findall t := by
  induction u with
  | nil => rfl
  | cons c cs ih =>
    rw [List.cons_append,
      stage3findall_cons c _ (hu c (List.mem_cons_self _ _)),
      ih (fun x hx => hu x (List.mem_cons_of_mem _ hx))]

theorem stage3findall_lbrace_fail (rest u : List Char) (c2 : Char)
    (r2 : List Char) (hnb : nonBraceRun rest = (u, c2 :: r2))
    (hfail : ¬(c2 = rbrace ∧ containsLit anchorL u = true)) :
    stage3findall (lbrace :: rest) = stage3findall rest := by
  unfold stage3findall
  rw [show (lbrace :: rest).length + 1 = (rest.length + 1) + 1 from by simp,
    stage3go.eq_def]
  simp only [if_true]
  rw [hnb]
  simp only []
  rw [if_neg hfail]

theorem stage3findall_lbrace_found (rest u r2 : List Char)
    (hnb : nonBraceRun rest = (u, rbrace :: r2))
    (ha : containsLit anchorL u = true) :
    stage3findall (lbrace :: rest) =
      (lbrace :: u ++ [rbrace]) :: stage3findall r2 := by
  unfold stage3findall
  rw [show (lbrace :: rest).length + 1 = (rest.length + 1) + 1 from by simp,
    stage3go.eq_def]
  simp only [if_true]
  rw [hnb]
  simp only []
  rw [if_pos ⟨trivial, ha⟩]
  have hr2 : r2.length < rest.length := by
    have := nonBraceRun_snd_length rest
    rw [hnb] at this
    simp only [List.length_cons] at this
    omega
  rw [stage3go_congr (rest.length + 1) (r2.length + 1) r2 (by omega)
    (by omega)]

/-- Stage-3 wrapping of the claim: the serialized verdict as one of several
brace-delimited spans in prose (the first span lacks the anchor). -/
def spanWrapL (j : List Char) : List Char :=
  "Analysis ".data ++ (lbrace :: ("preliminary".data ++
    (rbrace :: (" follows: ".data ++ (j ++ " End.".data)))))

theorem stage3findall_spanWrap (v1 v2 v3 v4 : List Char)
    (h1 : GoodVal v1) (h2 : GoodVal v2) (h3 : GoodVal v3) (h4 : GoodVal v4) :
    stage3findall (spanWrapL (serializeVerdictL v1 v2 v3 v4)) =
      [serializeVerdictL v1 v2 v3 v4] := by
  have hbody := serializeBody_clean v1 v2 v3 v4 h1 h2 h3 h4
  unfold spanWrapL
  rw [stage3findall_skip _ _ (by decide),
    stage3findall_lbrace_fail _ "preliminary".data rbrace _
      (nonBraceRun_clean _ _ (by decide)) (by decide),
    stage3findall_skip "preliminary".data _ (by decide),
    stage3findall_cons rbrace _ (by decide),
    stage3findall_skip " follows: ".data _ (by decide),
    serialize_split]
  rw [stage3findall_lbrace_found _ (serializeBody v1 v2 v3 v4) _
    (nonBraceRun_clean _ _ (fun c hc => ⟨(hbody c hc).1, (hbody c hc).2.1⟩))
    (by
      rw [show serializeBody v1 v2 v3 v4 = anchorL ++ (':' :: ' ' :: '"' ::
        (v1 ++ ('"' :: ',' :: ' ' ::
          lineKV "Sanitization Found?" v2 (',' :: ' ' ::
            lineKV "Attack Feasible?" v3 (',' :: ' ' ::
              lineKV "Confidence" v4 []))))) from rfl]
      exact containsLit_here _ _ (by decide))]
  rw [show stage3findall " End.".data = [] from rfl, serialize_eq_braces]
  simp [List.cons_append]

/-- `str.strip()` of the serialized verdict is itself. -/
theorem pyStrip_serialize (v1 v2 v3 v4 : List Char) :
    pyStrip (serializeVerdictL v1 v2 v3 v4) =
      serializeVerdictL v1 v2 v3 v4 := by
  rw [serialize_eq_braces]
  unfold pyStrip
  simp [List.dropWhile, show isRws lbrace = false from rfl,
    show isRws rbrace = false from rfl]

/-- Stage-3 round trip: the verdict embedded as a brace-delimited span among
prose still yields the verdict. -/
theorem extract_spanWrap (v1 v2 v3 v4 : List Char) (model selfModel : String)
    (h1 : GoodVal v1) (h2 : GoodVal v2) (h3 : GoodVal v3) (h4 : GoodVal v4) :
    extractVerdict (spanWrapL (serializeVerdictL v1 v2 v3 v4)) model
      selfModel = verdictObjL v1 v2 v3 v4 model := by
  have hj : jsonParse (spanWrapL (serializeVerdictL v1 v2 v3 v4)) = none := by
    rw [show spanWrapL (serializeVerdictL v1 v2 v3 v4) =
      'A' :: ("nalysis ".data ++ (lbrace :: ("preliminary".data ++
        (rbrace :: (" follows: ".data ++ (serializeVerdictL v1 v2 v3 v4 ++
          " End.".data)))))) from rfl]
    exact jsonParse_plain_head 'A' _ rfl (by decide) (by decide) (by decide)
      (by decide) (by decide) (by decide) (by decide) (by decide) (by decide)
      rfl
  have hnt : stage2search (spanWrapL (serializeVerdictL v1 v2 v3 v4)) =
      none := by
    have hb := serializeBody_all v1 v2 v3 v4 (fun c => decide (c ≠ btick))
      (by decide) (by decide) (by decide) (by decide) (by decide) (by decide)
      (by decide) (by decide)
      (goodVal_all h1 _ (fun c _ _ _ _ he _ => decide_eq_true he))
      (goodVal_all h2 _ (fun c _ _ _ _ he _ => decide_eq_true he))
      (goodVal_all h3 _ (fun c _ _ _ _ he _ => decide_eq_true he))
      (goodVal_all h4 _ (fun c _ _ _ _ he _ => decide_eq_true he))
    apply stage2search_none
    have hall : (spanWrapL (serializeVerdictL v1 v2 v3 v4)).all
        (fun c => decide (c ≠ btick)) = true := by
      simp [spanWrapL, serialize_eq_braces, List.all_append, List.all_cons,
        btick, lbrace, rbrace]
      simpa [btick, List.all_eq_true] using hb
    intro c hc
    have := List.all_eq_true.mp hall c hc
    simpa using this
  unfold extractVerdict
  rw [hj]
  simp only [stage2extract]
  rw [hnt]
  rw [stage3findall_spanWrap v1 v2 v3 v4 h1 h2 h3 h4]
  simp only [firstAccepted, acceptCandidate]
  rw [pyStrip_serialize, jsonParse_serialize _ _ _ _ h1 h2 h3 h4]
  rfl

/-! Stage-4 machinery: leftmost-search behaviour of the four field regexes on
a text of standalone quoted key-value lines. -/

theorem dropLit_nil (t : List Char) : dropLit [] t = some t := by
  have := dropLit_self [] t
  simpa using this

/-- Matching the tail `kc"` of a quoted-key pattern against a quote-free text
span `v` followed by a quote succeeds exactly when `v` is the key. -/
theorem dropLit_keyquote (kc v rest : List Char)
    (hkc : ∀ c ∈ kc, c ≠ '"') (hv : ∀ c ∈ v, c ≠ '"') :
    dropLit (kc ++ ['"']) (v ++ ('"' :: rest)) =
      if v = kc then some rest else none := by
  induction kc generalizing v with
  | nil =>
    cases v with
    | nil => simp [dropLit, dropLit_nil]
    | cons c cs =>
      have h1 : c ≠ '"' := hv c (List.mem_cons_self _ _)
      simp [dropLit, h1]
  | cons p ps ih =>
    cases v with
    | nil =>
      have h1 : p ≠ '"' := hkc p (List.mem_cons_self _ _)
      simp [dropLit, Ne.symm h1]
    | cons c cs =>
      simp only [List.cons_append, dropLit, List.append_eq]
      by_cases hcp : c = p
      · subst hcp
        rw [if_pos rfl,
          ih cs (fun x hx => hkc x (List.mem_cons_of_mem _ hx))
            (fun x hx => hv x (List.mem_cons_of_mem _ hx))]
        by_cases hcs : cs = ps
        · simp [hcs]
        · simp [hcs]
      · rw [if_neg hcp]
        have : ¬(c :: cs = p :: ps) := by
          intro h
          exact hcp (List.cons.injEq .. ▸ h).1
        simp [this]

/-- A field pattern cannot match at a non-quote character. -/
theorem keyMatchAt_nonquote (k0 : List Char) (c : Char) (rest : List Char)
    (hc : c ≠ '"') : keyMatchAt ('"' :: k0) (c :: rest) = none := by
  unfold keyMatchAt
  rw [dropLit_none_of_head_ne '"' c k0 rest hc]

/-- A field pattern cannot match at a quote followed by a character that is
neither a quote nor in the key. -/
theorem keyMatchAt_char_mismatch (kc : List Char) (d : Char)
    (rest : List Char) (hd : ∀ c ∈ kc, c ≠ d) (hdq : d ≠ '"') :
    keyMatchAt ('"' :: (kc ++ ['"'])) ('"' :: d :: rest) = none := by
  unfold keyMatchAt
  rw [show dropLit ('"' :: (kc ++ ['"'])) ('"' :: d :: rest) =
    dropLit (kc ++ ['"']) (d :: rest) from by simp [dropLit]]
  cases kc with
  | nil =>
    simp only [List.nil_append]
    rw [dropLit_none_of_head_ne '"' d [] rest hdq]
  | cons p ps =>
    rw [List.cons_append, dropLit_none_of_head_ne p d _ rest
      (Ne.symm (hd p (List.mem_cons_self _ _)))]

/-- The after-key part of the stage-4 regex fails when no colon follows. -/
theorem keyTail_no_colon (rest : List Char)
    (hrest : ∀ r2, rws rest ≠ ':' :: r2) : keyTail rest = none := by
  unfold keyTail
  cases hr : rws rest with
  | nil => rfl
  | cons c2 r2 =>
    by_cases hc2 : c2 = ':'
    · exact absurd (hc2 ▸ hr) (hrest r2)
    · split
      · next r2' heq =>
        exact absurd (List.cons.injEq .. ▸ heq.symm).1.symm hc2
      · rfl

/-- The after-key part of the stage-4 regex accepts colon, space, and a
nonempty quote-free quoted value. -/
theorem keyTail_colon (v rest : List Char) (hv : ∀ c ∈ v, c ≠ '"')
    (hvne : v ≠ []) :
    keyTail (':' :: ' ' :: '"' :: (v ++ ('"' :: rest))) = some v := by
  unfold keyTail
  rw [rws_cons_of_not ':' _ rfl]
  simp only []
  rw [rws_ws ' ' _ rfl, rws_cons_of_not '"' _ rfl]
  simp only []
  rw [quoteRun_clean v _ hv]
  simp only []
  rw [if_neg hvne]

/-- A field pattern cannot match at the opening quote of another quoted span
unless that span is the key followed by a colon. -/
theorem keyMatchAt_valuepos (kc v rest : List Char)
    (hkc : ∀ c ∈ kc, c ≠ '"') (hv : ∀ c ∈ v, c ≠ '"')
    (hrest : ∀ r2, rws rest ≠ ':' :: r2) :
    keyMatchAt ('"' :: (kc ++ ['"'])) ('"' :: (v ++ ('"' :: rest))) =
      none := by
  unfold keyMatchAt
  rw [show dropLit ('"' :: (kc ++ ['"'])) ('"' :: (v ++ ('"' :: rest))) =
    dropLit (kc ++ ['"']) (v ++ ('"' :: rest)) from by simp [dropLit]]
  rw [dropLit_keyquote kc v rest hkc hv]
  by_cases hveq : v = kc
  · rw [if_pos hveq]
    simp only []
    exact keyTail_no_colon rest hrest
  · rw [if_neg hveq]

/-- A field pattern cannot match at the opening quote of a differently-keyed
line. -/
theorem keyMatchAt_keypos_ne (kc kd rest : List Char)
    (hkc : ∀ c ∈ kc, c ≠ '"') (hkd : ∀ c ∈ kd, c ≠ '"') (hne : kd ≠ kc) :
    keyMatchAt ('"' :: (kc ++ ['"'])) ('"' :: (kd ++ ('"' :: rest))) =
      none := by
  unfold keyMatchAt
  rw [show dropLit ('"' :: (kc ++ ['"'])) ('"' :: (kd ++ ('"' :: rest))) =
    dropLit (kc ++ ['"']) (kd ++ ('"' :: rest)) from by simp [dropLit]]
  rw [dropLit_keyquote kc kd rest hkc hkd, if_neg hne]

theorem reSearchKey_cons_none (kpat : List Char) (c : Char)
    (rest : List Char) (h : keyMatchAt kpat (c :: rest) = none) :
    reSearchKey kpat (c :: rest) = reSearchKey kpat rest := by
  rw [reSearchKey.eq_def]
  simp only []
  rw [h]

theorem reSearchKey_skip_noquote (k0 u t : List Char)
    (hu : ∀ c ∈ u, c ≠ '"') :
    reSearchKey ('"' :: k0) (u ++ t) = reSearchKey ('"' :: k0) t := by
  induction u with
  | nil => rfl
  | cons c cs ih =>
    rw [List.cons_append,
      reSearchKey_cons_none _ _ _
        (keyMatchAt_nonquote k0 c _ (hu c (List.mem_cons_self _ _))),
      ih (fun x hx => hu x (List.mem_cons_of_mem _ hx))]

/-- The searched key matches at the opening quote of its own line, capturing
the quoted value. -/
theorem reSearchKey_lineKV_match (k : String) (v rest : List Char)
    (hv : ∀ c ∈ v, c ≠ '"') (hvne : v ≠ []) :
    reSearchKey ('"' :: (k.data ++ ['"'])) (lineKV k v rest) = some v := by
  have hm : keyMatchAt ('"' :: (k.data ++ ['"'])) (lineKV k v rest) =
      some v := by
    unfold lineKV keyMatchAt
    rw [show dropLit ('"' :: (k.data ++ ['"']))
        ('"' :: (k.data ++ ('"' :: ':' :: ' ' :: '"' :: (v ++ ('"' :: rest)))))
      = dropLit (k.data ++ ['"'])
        (k.data ++ ('"' :: ':' :: ' ' :: '"' :: (v ++ ('"' :: rest))))
      from by simp [dropLit]]
    rw [show k.data ++ ('"' :: ':' :: ' ' :: '"' :: (v ++ ('"' :: rest))) =
      (k.data ++ ['"']) ++ (':' :: ' ' :: '"' :: (v ++ ('"' :: rest))) from by
        simp]
    rw [dropLit_self]
    simp only []
    exact keyTail_colon v rest hv hvne
  unfold lineKV at hm ⊢
  rw [reSearchKey.eq_def]
  simp only []
  rw [hm]

/-- Searching a key skips a complete line keyed by a different field name. -/
theorem reSearchKey_skip_line (kc : List Char) (k2 : String)
    (v rest : List Char)
    (hkc : ∀ c ∈ kc, c ≠ '"' ∧ c ≠ ':' ∧ c ≠ '\n')
    (hk2 : ∀ c ∈ k2.data, c ≠ '"') (hv : ∀ c ∈ v, c ≠ '"')
    (hne : k2.data ≠ kc)
    (hrest : ∀ r2, rws ('\n' :: rest) ≠ ':' :: r2) :
    reSearchKey ('"' :: (kc ++ ['"'])) (lineKV k2 v ('\n' :: rest)) =
      reSearchKey ('"' :: (kc ++ ['"'])) rest := by
  have hkcq : ∀ c ∈ kc, c ≠ '"' := fun c hc => (hkc c hc).1
  unfold lineKV
  rw [reSearchKey_cons_none _ _ _ (keyMatchAt_keypos_ne kc k2.data _ hkcq hk2 hne)]
  rw [reSearchKey_skip_noquote _ k2.data _ hk2]
  rw [reSearchKey_cons_none _ _ _ (keyMatchAt_char_mismatch kc ':' _
    (fun c hc => (hkc c hc).2.1) (by decide))]
  rw [reSearchKey_cons_none _ _ _ (keyMatchAt_nonquote _ ':' _ (by decide))]
  rw [reSearchKey_cons_none _ _ _ (keyMatchAt_nonquote _ ' ' _ (by decide))]
  rw [reSearchKey_cons_none _ _ _ (keyMatchAt_valuepos kc v _ hkcq hv hrest)]
  rw [reSearchKey_skip_noquote _ v _ hv]
  rw [reSearchKey_cons_none _ _ _ (keyMatchAt_char_mismatch kc '\n' _
    (fun c hc => (hkc c hc).2.2) (by decide))]
  rw [reSearchKey_cons_none _ _ _ (keyMatchAt_nonquote _ '\n' _ (by decide))]


/-- Stage-4 wrapping of the claim: four standalone quoted key-value lines
with no enclosing braces, preceded by a prose line. -/
def linesWrapL (v1 v2 v3 v4 : List Char) : List Char :=
  "Result:\n".data ++
    lineKV "False Positive" v1 ('\n' ::
      lineKV "Sanitization Found?" v2 ('\n' ::
        lineKV "Attack Feasible?" v3 ('\n' ::
          lineKV "Confidence" v4 ['\n'])))

/-- Character-wise property of the four-line text, from the four value
hypotheses and the concrete skeleton. -/
theorem linesWrap_all (v1 v2 v3 v4 : List Char) (p : Char → Bool)
    (hR : (("Result:\n".data).all p) = true)
    (hq : p '"' = true) (hco : p ':' = true) (hsp : p ' ' = true)
    (hnl : p '\n' = true)
    (hk1 : (("False Positive".data).all p) = true)
    (hk2 : (("Sanitization Found?".data).all p) = true)
    (hk3 : (("Attack Feasible?".data).all p) = true)
    (hk4 : (("Confidence".data).all p) = true)
    (hv1 : v1.all p = true) (hv2 : v2.all p = true)
    (hv3 : v3.all p = true) (hv4 : v4.all p = true) :
    (linesWrapL v1 v2 v3 v4).all p = true := by
  unfold linesWrapL lineKV
  simp only [List.all_append, List.all_cons, List.append_eq,
    Bool.and_eq_true]
  simp_all

/-- A text with no opening brace yields no stage-3 candidate spans. -/
theorem stage3findall_no_lbrace (l : List Char)
    (h : ∀ c ∈ l, c ≠ lbrace) : stage3findall l = [] := by
  induction l with
  | nil => rfl
  | cons c cs ih =>
    rw [stage3findall_cons c _ (h c (List.mem_cons_self _ _)),
      ih (fun x hx => h x (List.mem_cons_of_mem _ hx))]

/-- After a value line's trailing newline the next line starts with a quote,
so the after-key regex part cannot fire across the line break. -/
theorem rws_newline_quote (k : String) (v r r2 : List Char) :
    rws ('\n' :: lineKV k v r) ≠ ':' :: r2 := by
  rw [rws_ws '\n' _ rfl]
  unfold lineKV
  rw [rws_cons_of_not '"' _ rfl]
  intro heq
  exact absurd (List.cons.injEq .. ▸ heq).1 (by decide)

theorem extract_linesWrap (v1 v2 v3 v4 : List Char) (model selfModel : String)
    (h1 : GoodVal v1) (h2 : GoodVal v2) (h3 : GoodVal v3) (h4 : GoodVal v4) :
    extractVerdict (linesWrapL v1 v2 v3 v4) model selfModel =
      verdictObjL v1 v2 v3 v4 model := by
  have hv1q : ∀ c ∈ v1, c ≠ '"' := fun c hc => (h1.2 c hc).1
  have hv2q : ∀ c ∈ v2, c ≠ '"' := fun c hc => (h2.2 c hc).1
  have hv3q : ∀ c ∈ v3, c ≠ '"' := fun c hc => (h3.2 c hc).1
  have hv4q : ∀ c ∈ v4, c ≠ '"' := fun c hc => (h4.2 c hc).1
  have hj : jsonParse (linesWrapL v1 v2 v3 v4) = none := by
    rw [show linesWrapL v1 v2 v3 v4 = 'R' :: ("esult:\n".data ++
      lineKV "False Positive" v1 ('\n' ::
        lineKV "Sanitization Found?" v2 ('\n' ::
          lineKV "Attack Feasible?" v3 ('\n' ::
            lineKV "Confidence" v4 ['\n'])))) from rfl]
    exact jsonParse_plain_head 'R' _ rfl (by decide) (by decide) (by decide)
      (by decide) (by decide) (by decide) (by decide) (by decide) (by decide)
      rfl
  have hnt : stage2search (linesWrapL v1 v2 v3 v4) = none := by
    have hall := linesWrap_all v1 v2 v3 v4 (fun c => decide (c ≠ btick))
      (by decide) (by decide) (by decide) (by decide) (by decide) (by decide)
      (by decide) (by decide) (by decide)
      (goodVal_all h1 _ (fun c _ _ _ _ he _ => decide_eq_true he))
      (goodVal_all h2 _ (fun c _ _ _ _ he _ => decide_eq_true he))
      (goodVal_all h3 _ (fun c _ _ _ _ he _ => decide_eq_true he))
      (goodVal_all h4 _ (fun c _ _ _ _ he _ => decide_eq_true he))
    apply stage2search_none
    intro c hc
    have := List.all_eq_true.mp hall c hc
    simpa using this
  have hnlb : ∀ c ∈ linesWrapL v1 v2 v3 v4, c ≠ lbrace := by
    have hall := linesWrap_all v1 v2 v3 v4 (fun c => decide (c ≠ lbrace))
      (by decide) (by decide) (by decide) (by decide) (by decide) (by decide)
      (by decide) (by decide) (by decide)
      (goodVal_all h1 _ (fun c _ _ hb _ _ _ => decide_eq_true hb))
      (goodVal_all h2 _ (fun c _ _ hb _ _ _ => decide_eq_true hb))
      (goodVal_all h3 _ (fun c _ _ hb _ _ _ => decide_eq_true hb))
      (goodVal_all h4 _ (fun c _ _ hb _ _ _ => decide_eq_true hb))
    intro c hc
    have := List.all_eq_true.mp hall c hc
    simpa using this
  have hs1 : reSearchKey (kpatFor "False Positive")
      (linesWrapL v1 v2 v3 v4) = some v1 := by
    unfold linesWrapL
    rw [show kpatFor "False Positive" =
      '"' :: ("False Positive".data ++ ['"']) from rfl]
    rw [reSearchKey_skip_noquote _ "Result:\n".data _ (by decide)]
    exact reSearchKey_lineKV_match "False Positive" v1 _ hv1q h1.1
  have hs2 : reSearchKey (kpatFor "Sanitization Found?")
      (linesWrapL v1 v2 v3 v4) = some v2 := by
    unfold linesWrapL
    rw [show kpatFor "Sanitization Found?" =
      '"' :: ("Sanitization Found?".data ++ ['"']) from rfl]
    rw [reSearchKey_skip_noquote _ "Result:\n".data _ (by decide)]
    rw [reSearchKey_skip_line _ "False Positive" v1 _ (by decide) (by decide)
      hv1q (by decide) (fun r2 => rws_newline_quote _ _ _ r2)]
    exact reSearchKey_lineKV_match "Sanitization Found?" v2 _ hv2q h2.1
  have hs3 : reSearchKey (kpatFor "Attack Feasible?")
      (linesWrapL v1 v2 v3 v4) = some v3 := by
    unfold linesWrapL
    rw [show kpatFor "Attack Feasible?" =
      '"' :: ("Attack Feasible?".data ++ ['"']) from rfl]
    rw [reSearchKey_skip_noquote _ "Result:\n".data _ (by decide)]
    rw [reSearchKey_skip_line _ "False Positive" v1 _ (by decide) (by decide)
      hv1q (by decide) (fun r2 => rws_newline_quote _ _ _ r2)]
    rw [reSearchKey_skip_line _ "Sanitization Found?" v2 _ (by decide)
      (by decide) hv2q (by decide) (fun r2 => rws_newline_quote _ _ _ r2)]
    exact reSearchKey_lineKV_match "Attack Feasible?" v3 _ hv3q h3.1
  have hs4 : reSearchKey (kpatFor "Confidence")
      (linesWrapL v1 v2 v3 v4) = some v4 := by
    unfold linesWrapL
    rw [show kpatFor "Confidence" =
      '"' :: ("Confidence".data ++ ['"']) from rfl]
    rw [reSearchKey_skip_noquote _ "Result:\n".data _ (by decide)]
    rw [reSearchKey_skip_line _ "False Positive" v1 _ (by decide) (by decide)
      hv1q (by decide) (fun r2 => rws_newline_quote _ _ _ r2)]
    rw [reSearchKey_skip_line _ "Sanitization Found?" v2 _ (by decide)
      (by decide) hv2q (by decide) (fun r2 => rws_newline_quote _ _ _ r2)]
    rw [reSearchKey_skip_line _ "Attack Feasible?" v3 _ (by decide)
      (by decide) hv3q (by decide) (fun r2 => rws_newline_quote _ _ _ r2)]
    exact reSearchKey_lineKV_match "Confidence" v4 _ hv4q h4.1
  have h4x : stage4extract (linesWrapL v1 v2 v3 v4) =
      some (v1.asString, v2.asString, v3.asString, v4.asString) := by
    unfold stage4extract
    rw [hs1, hs2, hs3, hs4]
  unfold extractVerdict
  rw [hj]
  simp only [stage2extract]
  rw [hnt]
  rw [stage3findall_no_lbrace _ hnlb]
  simp only [firstAccepted]
  rw [h4x]
  rfl


/-- C8: round-trip through the extraction cascade.  For any Verdict-shaped
object with four nonempty clean string values serialized as JSON text,
extraction returns the original fields with `model_used` overlaid (stage 1);
and the same verdict is still recovered when the JSON is wrapped in prose
inside a fenced code block (stage 2), embedded as one of several
brace-delimited spans in prose (stage 3), or expressed as four standalone
quoted key-value lines with no enclosing braces (stage 4). -/
theorem C8_round_trip (v1 v2 v3 v4 : List Char) (model selfModel : String)
    (h1 : GoodVal v1) (h2 : GoodVal v2) (h3 : GoodVal v3) (h4 : GoodVal v4) :
    extractVerdict (serializeVerdictL v1 v2 v3 v4) model selfModel =
        verdictObjL v1 v2 v3 v4 model ∧
      extractVerdict (fenceWrapL (serializeVerdictL v1 v2 v3 v4)) model
          selfModel = verdictObjL v1 v2 v3 v4 model ∧
      extractVerdict (spanWrapL (serializeVerdictL v1 v2 v3 v4)) model
          selfModel = verdictObjL v1 v2 v3 v4 model ∧
      extractVerdict (linesWrapL v1 v2 v3 v4) model selfModel =
          verdictObjL v1 v2 v3 v4 model :=
  ⟨extract_serialized v1 v2 v3 v4 model selfModel h1 h2 h3 h4,
   extract_fenceWrap v1 v2 v3 v4 model selfModel h1 h2 h3 h4,
   extract_spanWrap v1 v2 v3 v4 model selfModel h1 h2 h3 h4,
   extract_linesWrap v1 v2 v3 v4 model selfModel h1 h2 h3 h4⟩

/-- C8 witness: the round trip at the concrete verdict
(YES, NO, NO, HIGH) with model "openai/gpt-4o". -/
theorem C8_witness :
    extractVerdict
        (serializeVerdictL "YES".data "NO".data "NO".data "HIGH".data)
        "openai/gpt-4o" "anthropic/claude-3.5-sonnet" =
      verdictObjL "YES".data "NO".data "NO".data "HIGH".data
        "openai/gpt-4o" ∧
    extractVerdict
        (fenceWrapL (serializeVerdictL "YES".data "NO".data "NO".data
          "HIGH".data))
        "openai/gpt-4o" "anthropic/claude-3.5-sonnet" =
      verdictObjL "YES".data "NO".data "NO".data "HIGH".data
        "openai/gpt-4o" ∧
    extractVerdict
        (spanWrapL (serializeVerdictL "YES".data "NO".data "NO".data
          "HIGH".data))
        "openai/gpt-4o" "anthropic/claude-3.5-sonnet" =
      verdictObjL "YES".data "NO".data "NO".data "HIGH".data
        "openai/gpt-4o" ∧
    extractVerdict (linesWrapL "YES".data "NO".data "NO".data "HIGH".data)
        "openai/gpt-4o" "anthropic/claude-3.5-sonnet" =
      verdictObjL "YES".data "NO".data "NO".data "HIGH".data
        "openai/gpt-4o" :=
  C8_round_trip "YES".data "NO".data "NO".data "HIGH".data
    "openai/gpt-4o" "anthropic/claude-3.5-sonnet"
    (by decide) (by decide) (by decide) (by decide)

end ZeroFalse
